import Mathlib

/-!
Verification of the Mr Booky dialogue session state machine
(`main.py` / `router_and_booking.py`): sticky-intent decision, budget
lifecycle, and the booking slot-filling flow.

The Python code is shallowly embedded: dictionaries become association
lists, the session dataclass becomes a structure, `re` patterns become
terms of a small executable regex datatype evaluated by a backtracking
matcher (boolean semantics: `rxSearch` is true iff the pattern matches
somewhere, exactly the truth value the code reads off `re.search`), and
external collaborators (the LLM router, tool clients, the entity
extractors, `trendy_phrase`, `enrich_reply`, the wall clock) are explicit
parameters, mirroring the spec's isolation of those as black boxes.
-/

namespace MrBooky

/-- Python `str.lower` for one character, restricted to the alphabets the
patterns use (ASCII and Greek, including accented capitals). -/
def pyLowerChar (c : Char) : Char :=
  if c.val ≥ 65 ∧ c.val ≤ 90 then Char.ofNat (c.toNat + 32)
  else if c.val ≥ 0x391 ∧ c.val ≤ 0x3A9 ∧ c.val ≠ 0x3A2 then Char.ofNat (c.toNat + 32)
  else if c = 'Ά' then 'ά' else if c = 'Έ' then 'έ' else if c = 'Ή' then 'ή'
  else if c = 'Ί' then 'ί' else if c = 'Ό' then 'ό' else if c = 'Ύ' then 'ύ'
  else if c = 'Ώ' then 'ώ' else if c = 'Ϊ' then 'ϊ' else if c = 'Ϋ' then 'ϋ'
  else c

/-- Python `str.upper` for one character (ASCII letters; the code only
compares an upper-cased slot value against the ASCII literal "ASAP"). -/
def pyUpperChar (c : Char) : Char :=
  if c.val ≥ 97 ∧ c.val ≤ 122 then Char.ofNat (c.toNat - 32) else c

/-- Python `str.lower` on a whole string. -/
def pyLower (s : String) : String := String.mk (s.data.map pyLowerChar)

/-- Python `str.upper` on a whole string. -/
def pyUpper (s : String) : String := String.mk (s.data.map pyUpperChar)

/-- Whitespace characters recognised by Python `str.strip` / `\s`. -/
def isSpaceChar (c : Char) : Bool :=
  c = ' ' ∨ c = '\t' ∨ c = '\n' ∨ c = '\r' ∨ c.val = 11 ∨ c.val = 12

/-- Python `str.strip()`. -/
def pyStrip (s : String) : String :=
  String.mk (((s.data.dropWhile isSpaceChar).reverse.dropWhile isSpaceChar).reverse)

/-- ASCII digit test (`\d`; the code never feeds non-ASCII digits). -/
def isDigitChar (c : Char) : Bool := c.val ≥ 48 ∧ c.val ≤ 57

/-- Word characters for `re` `\b` under `re.UNICODE`: ASCII alphanumerics,
underscore, and the Greek / Greek-extended letter blocks. -/
def isWordChar (c : Char) : Bool :=
  (c.val ≥ 48 ∧ c.val ≤ 57) ∨ (c.val ≥ 65 ∧ c.val ≤ 90) ∨ (c.val ≥ 97 ∧ c.val ≤ 122)
  ∨ c = '_' ∨ (c.val ≥ 0x370 ∧ c.val ≤ 0x3FF) ∨ (c.val ≥ 0x1F00 ∧ c.val ≤ 0x1FFF)

/-- Python substring containment (`needle in haystack`). -/
def containsSub (haystack needle : List Char) : Bool :=
  match haystack with
  | [] => needle = []
  | _ :: rest => needle.isPrefixOf haystack || containsSub rest needle

/-- String-level wrapper for `containsSub`. -/
def strContains (haystack needle : String) : Bool :=
  containsSub haystack.data needle.data

/-- Python `s[:n]` on strings. -/
def pyTake (s : String) (n : Nat) : String := String.mk (s.data.take n)

/-- Truthiness of an optional string slot value (Python `not x` is true for
both a missing key and an empty string). -/
def truthyOpt (v : Option String) : Bool :=
  match v with
  | none => false
  | some s => s ≠ ""

/-- Association-list lookup, the embedding of `dict.get`. -/
def dget (d : List (String × String)) (k : String) : Option String :=
  (d.find? (fun kv => kv.1 = k)).map (·.2)

/-- Association-list update, the embedding of `dict[k] = v` (replaces in
place, preserving insertion order, else appends). -/
def dset (d : List (String × String)) (k v : String) : List (String × String) :=
  if d.any (fun kv => kv.1 = k) then
    d.map (fun kv => if kv.1 = k then (k, v) else kv)
  else d ++ [(k, v)]

/-- Values stored in `pending_trip` (the LLM router merges strings, ints
and booleans into it). -/
inductive PVal where
  | s : String → PVal
  | i : Int → PVal
  | b : Bool → PVal
deriving DecidableEq, Repr

/-- Python truthiness of a `pending_trip` value. -/
def truthyPVal (v : Option PVal) : Bool :=
  match v with
  | none => false
  | some (.s s) => s ≠ ""
  | some (.i n) => n ≠ 0
  | some (.b b) => b

/-- Lookup in `pending_trip`. -/
def pget (d : List (String × PVal)) (k : String) : Option PVal :=
  (d.find? (fun kv => kv.1 = k)).map (·.2)

/-- Update in `pending_trip`. -/
def pset (d : List (String × PVal)) (k : String) (v : PVal) : List (String × PVal) :=
  if d.any (fun kv => kv.1 = k) then
    d.map (fun kv => if kv.1 = k then (k, v) else kv)
  else d ++ [(k, v)]

/-- Last `n` elements of a list (Python `l[-n:]`). -/
def takeLast {α : Type} (n : Nat) (l : List α) : List α := l.drop (l.length - n)

/-- Python `"\n".join`. -/
def joinNL (l : List String) : String := String.intercalate "\n" l

/-! ## A small executable regex engine

Each `re` pattern used by the code is translated into an `Rx` term.  The
matcher `mA` enumerates every end state reachable by matching a pattern at
a position (left context is kept reversed for `\b` and lookbehind), so the
derived boolean `rxSearch` agrees with `re.search`'s truth value: greedy
versus lazy order is irrelevant for existence of a match.  Matching is
case-insensitive (all the embedded patterns carry `re.IGNORECASE`). -/

inductive Rx where
  | fail : Rx
  | eps : Rx
  | any : Rx
  | lit : Char → Rx
  | cls : (Char → Bool) → Rx
  | seq : Rx → Rx → Rx
  | alt : Rx → Rx → Rx
  | star : Rx → Rx
  | wordB : Rx
  | bol : Rx
  | eol : Rx
  | nlb : List Char → Rx
  | nla : Rx → Rx

/-- Is the split point between `left` (reversed) and `right` a `\b`
word boundary? -/
def boundaryAt (left right : List Char) : Bool :=
  let lw := match left with | [] => false | c :: _ => isWordChar c
  let rw := match right with | [] => false | c :: _ => isWordChar c
  lw ≠ rw

/-- All (left-reversed, remaining-input) end states reachable by matching a
pattern starting at the given split.  Fuel only bounds recursion depth; the
`star` case demands consumed input before iterating, so any adequate fuel
yields the same result set. -/
def mA : Nat → Rx → List Char → List Char → List (List Char × List Char)
  | 0, _, _, _ => []
  | _ + 1, .fail, _, _ => []
  | _ + 1, .eps, l, r => [(l, r)]
  | _ + 1, .any, l, r =>
    match r with
    | [] => []
    | c :: rest => if c = '\n' then [] else [(c :: l, rest)]
  | _ + 1, .lit c, l, r =>
    match r with
    | [] => []
    | c2 :: rest => if pyLowerChar c2 = pyLowerChar c then [(c2 :: l, rest)] else []
  | _ + 1, .cls p, l, r =>
    match r with
    | [] => []
    | c2 :: rest => if p (pyLowerChar c2) then [(c2 :: l, rest)] else []
  | f + 1, .seq a b, l, r => (mA f a l r).flatMap (fun s => mA f b s.1 s.2)
  | f + 1, .alt a b, l, r => mA f a l r ++ mA f b l r
  | f + 1, .star a, l, r =>
    (l, r) :: (((mA f a l r).filter (fun s => s.2.length < r.length)).flatMap
      (fun s => mA f (.star a) s.1 s.2))
  | _ + 1, .wordB, l, r => if boundaryAt l r then [(l, r)] else []
  | _ + 1, .bol, l, r => if l = [] then [(l, r)] else []
  | _ + 1, .eol, l, r => if r = [] ∨ r = ['\n'] then [(l, r)] else []
  | _ + 1, .nlb s, l, r =>
    if (l.take s.length).map pyLowerChar = s then [] else [(l, r)]
  | f + 1, .nla a, l, r => if mA f a l r = [] then [(l, r)] else []

/-- Structural size of a pattern, used to compute adequate fuel. -/
def rxSize : Rx → Nat
  | .fail | .eps | .any | .wordB | .bol | .eol => 1
  | .lit _ | .cls _ | .nlb _ => 1
  | .seq a b | .alt a b => rxSize a + rxSize b + 1
  | .star a | .nla a => rxSize a + 1

/-- Fuel adequate for matching `r` against input `s`. -/
def rxFuel (r : Rx) (s : List Char) : Nat := (s.length + 2) * (rxSize r + 2) + 16

/-- Does `r` match starting exactly at the split (`left` reversed)? -/
def rxMatchHere (r : Rx) (left right : List Char) (fuel : Nat) : Bool :=
  ¬ (mA fuel r left right).isEmpty

/-- Walk over all start positions (the scan `re.search` performs). -/
def rxSearchAux (r : Rx) (fuel : Nat) : List Char → List Char → Bool
  | left, [] => rxMatchHere r left [] fuel
  | left, c :: rest =>
    rxMatchHere r left (c :: rest) fuel || rxSearchAux r fuel (c :: left) rest

/-- Boolean semantics of `re.search(r, s)`. -/
def rxSearch (r : Rx) (s : String) : Bool :=
  rxSearchAux r (rxFuel r s.data) [] s.data

/-- Boolean semantics of `re.match(r, s)` (anchored at the start). -/
def rxMatchStart (r : Rx) (s : String) : Bool :=
  rxMatchHere r [] s.data (rxFuel r s.data)

/-- Literal string pattern. -/
def rstr (s : String) : Rx := s.data.foldr (fun c acc => Rx.seq (Rx.lit c) acc) Rx.eps

/-- Concatenation of a pattern list. -/
def rcat (l : List Rx) : Rx := l.foldr Rx.seq Rx.eps

/-- Alternation of a pattern list. -/
def ralts (l : List Rx) : Rx := l.foldr Rx.alt Rx.fail

/-- Optional pattern (`?`). -/
def ropt (r : Rx) : Rx := Rx.alt r Rx.eps

/-- One-or-more (`+`). -/
def rplus (r : Rx) : Rx := Rx.seq r (Rx.star r)

/-- The class `\d`. -/
def rdigit : Rx := Rx.cls isDigitChar

/-- The class `\s`. -/
def rws : Rx := Rx.cls isSpaceChar

/-- Character set `[...]`. -/
def rset (s : String) : Rx := Rx.cls (fun c => s.data.contains c)

/-- Whole-word literal: `\b w \b`. -/
def rword (w : String) : Rx := rcat [Rx.wordB, rstr w, Rx.wordB]

/-! ## Embedded patterns

One `Rx` term per `re` pattern of the code, in source order. -/

/-- main.py `CANCEL_RE`:
`^(?:άκυρο|ακυρο|cancel|τέλος|τελος|σταμάτα|σταματα|stop)\.?$`. -/
def cancelRx : Rx :=
  rcat [Rx.bol,
    ralts [rstr "άκυρο", rstr "ακυρο", rstr "cancel", rstr "τέλος", rstr "τελος",
      rstr "σταμάτα", rstr "σταματα", rstr "stop"],
    ropt (Rx.lit '.'), Rx.eol]

/-- main.py `CONFIRM_RE`: `\b(ναι|ναι\.?|σωστά|σωστα|ok|οκ|έτσι|ακριβώς)\b`. -/
def confirmRx : Rx :=
  rcat [Rx.wordB,
    ralts [rstr "ναι", Rx.seq (rstr "ναι") (ropt (Rx.lit '.')), rstr "σωστά", rstr "σωστα",
      rstr "ok", rstr "οκ", rstr "έτσι", rstr "ακριβώς"],
    Rx.wordB]

/-- main.py `CONTACT_PAT` (three top-level alternatives). -/
def contactRx : Rx :=
  ralts [
    rcat [ralts [rstr "ταξι", rstr "taxi", rcat [rstr "radio", Rx.star rws, rstr "taxi"],
            rcat [rstr "taxi", Rx.star rws, rstr "express"], rstr "taxipatras", rstr "ραδιοταξι"],
          Rx.star Rx.any,
          ralts [rstr "τηλ", rstr "τηλέφων", rstr "επικοινων", rstr "μαιλ", rstr "mail",
            rstr "booking", rstr "app", rstr "εφαρμογ", rstr "site", rstr "σελίδ",
            rstr "κατέβασ", rstr "install"]],
    rcat [ralts [rstr "τηλ", rstr "τηλέφων"], Rx.star Rx.any,
          ralts [rstr "ταξι", rstr "taxi", rcat [rstr "taxi", Rx.star rws, rstr "express"],
            rstr "taxipatras", rstr "ραδιοταξι"]],
    ralts [rcat [Rx.wordB, rstr "εφαρμογ", rset "ήη", Rx.wordB],
           rword "app",
           rcat [Rx.wordB, rstr "google", Rx.star rws, rstr "play", Rx.wordB],
           rcat [Rx.wordB, rstr "app", Rx.star rws, rstr "store", Rx.wordB]]]

/-- main.py `KM_QUERY_RE`: `πόσα\s+χιλιόμετρα`. -/
def kmQueryRx : Rx := rcat [rstr "πόσα", rplus rws, rstr "χιλιόμετρα"]

/-- main.py `TRIGGERS[INTENT_TRIP]`, in list order. -/
def tripTriggerRxs : List Rx :=
  [ Rx.seq Rx.wordB (rstr "διαδρομ"),
    rcat [Rx.wordB,
      ralts [Rx.seq (rstr "κοστ") (ralts [rstr "ίζει", rstr "ιζ"]),
        rstr "κοστιζει", rstr "κόστος", rstr "κοστος"],
      Rx.wordB],
    rcat [Rx.wordB, ralts [rstr "κοστίζουν", rstr "κοστιζουν"], Rx.wordB],
    rcat [Rx.wordB, rstr "ταρ", ropt (rstr "ί"), rstr "φα", Rx.wordB],
    rcat [Rx.wordB, rstr "στοιχ", ralts [rstr "ίζει", rstr "ιζ", rstr "ιζει"]],
    rcat [Rx.wordB,
      ralts [rcat [rstr "πόσο", rplus rws, rstr "πάει"],
        rcat [rstr "πόσο", rplus rws, rstr "κάνει"]],
      Rx.wordB],
    rcat [Rx.wordB, rstr "απ", rset "όο", rplus Rx.any, Rx.wordB,
      ralts [rstr "μέχρι", rstr "προς", rstr "για"], Rx.wordB],
    rcat [Rx.wordB, ralts [rstr "έως", rstr "εως", rstr "μέχρι", Rx.seq (rstr "απ") (rset "όο")],
      Rx.wordB, Rx.star Rx.any, Rx.wordB,
      ralts [rstr "διαδρομ", rstr "πάω", rstr "πάμε", rstr "ταξ", rstr "κοστος", rstr "κόστος",
        rcat [rstr "ταρ", ropt (rstr "ί"), rstr "φα"], rstr "στοιχ"],
      Rx.wordB],
    rcat [Rx.wordB, rstr "επιστροφ", rset "ήη", Rx.wordB],
    rcat [rstr "πόσα", rplus rws, rstr "χιλιόμετρα"] ]

/-- main.py `TRIGGERS[INTENT_HOSPITAL]`. -/
def hospitalTriggerRxs : List Rx :=
  [ rstr "νοσοκομ",
    rcat [rstr "εφημερ", Rx.star Rx.any, rstr "νοσο"] ]

/-- main.py `TRIGGERS[INTENT_PHARMACY]` (the second pattern carries a
negative lookbehind `(?<!νοσο)`; `Rx.nlb` receives the guard reversed). -/
def pharmacyTriggerRxs : List Rx :=
  [ rstr "φαρμακ",
    rcat [Rx.nlb ['ο', 'σ', 'ο', 'ν'], Rx.wordB, rstr "εφημερ"] ]

/-- main.py `TRIGGERS[INTENT_INFO]`. -/
def infoTriggerRxs : List Rx :=
  [ rstr "ξενοδοχ",
    rstr "παραλι",
    ralts [rword "καφε", rword "cafe", rword "καφες"],
    ralts [rstr "φαγητ", rstr "εστιατ"],
    ralts [rstr "μουσει", rstr "μπανι"],
    rstr "τροχαι",
    rstr "δημοτικ",
    rstr "ωραρια",
    rcat [rstr "τηλεφων",
      Rx.nla (rcat [rstr "ο κρατησ", ropt (Rx.lit 'η'), ropt (Rx.lit 'ς'), rstr " ταξι"])] ]

/-- main.py `TRIGGERS[INTENT_SERVICES]`. -/
def servicesTriggerRxs : List Rx :=
  [ rstr "εκδρομ",
    Rx.seq (rstr "πακετ") (rset "αο"),
    rcat [Rx.wordB, rstr "tour", ropt (Rx.lit 's'), Rx.wordB],
    rstr "vip",
    rstr "τουρισ",
    rstr "ολυμπ",
    rstr "δελφ",
    rstr "ναυπακ",
    rstr "γαλαξ",
    rcat [rstr "τι", rplus rws, rstr "περιλαμ"],
    rcat [rstr "δεν", rplus rws, rstr "περιλαμ"],
    ralts [Rx.seq (rstr "υπηρεσ")
        (ralts [rstr "ι", rstr "ιες", rstr "ίες", rstr "ια", rstr "ιων", rstr "εις"]),
      rcat [Rx.wordB, rstr "service", ropt (Rx.lit 's'), Rx.wordB],
      rword "service"],
    rstr "παιδι",
    Rx.seq (rstr "σχολ") (ralts [rstr "ει", rstr "ειο"]),
    ralts [rstr "δεμα", rstr "δέμα", Rx.seq (rstr "πακετ") (rset "οά"), rstr "courier"],
    ralts [rcat [rstr "night", Rx.star rws, rstr "taxi"],
      rcat [rstr "νυχτεριν", rset "οή", Rx.star rws, rstr "ταξι"]],
    rcat [Rx.wordB, rstr "σχολ", ralts [rstr "είο", rstr "ειο"], Rx.wordB],
    rcat [Rx.wordB, rstr "ραντεβ", ralts [rstr "ού", rstr "ου"], Rx.wordB],
    rcat [Rx.wordB, rstr "κρατ", ralts [rstr "ηση", rstr "ήση"], Rx.wordB],
    rword "booking" ]

/-- router_and_booking.py `TRIPCOST_TRIGGERS` (the `απ'` alternative spells
its trailing apostrophe as code point 39). -/
def tripcostTriggerRxs : List Rx :=
  [ rcat [Rx.wordB,
      ralts [rstr "ποσο", rstr "κοστιζει", rstr "τιμη", rstr "κοστος", rstr "ποσα"],
      Rx.wordB, Rx.star Rx.any, Rx.wordB,
      ralts [rstr "απο", Rx.seq (rstr "απ") (Rx.lit (Char.ofNat 39)), rstr "μεχρι", rstr "προς"],
      Rx.wordB],
    rcat [Rx.wordB, rstr "ποσο", rplus rws, rstr "παει", Rx.wordB],
    Rx.seq Rx.wordB (rstr "διαδρομ") ]

/-- router_and_booking.py `INTENT_SWITCH_TRIGGERS`, flattened in dict
order: intent name paired with its pattern list. -/
def intentSwitchTriggers : List (String × List Rx) :=
  [ ("HospitalIntent",
      [Rx.seq (rstr "νοσοκομ") (ralts [rstr "ειο", rstr "είο"]),
       Rx.seq (rstr "κλινικ") (rset "ηή")]),
    ("PharmacyIntent",
      [Rx.seq (rstr "φαρμακ") (ralts [rstr "ειο", rstr "είο", rstr "ια"]),
       Rx.seq (rstr "διανυκτερ") (ralts [rstr "ευ", rstr "ερεύ"])]) ]

/-- router_and_booking.py `BOOKING_TRIGGERS`. -/
def bookingTriggerRxs : List Rx :=
  [ rcat [Rx.wordB,
      ralts [rstr "κράτηση", rstr "κλείσε", rstr "κλείσιμο", rstr "book", rstr "booking",
        rstr "παραλαβή", rstr "ραντεβού"],
      Rx.wordB],
    rcat [ralts [rstr "θέλω", rstr "κανόνισε", rstr "κλείνω"], rplus rws,
      ralts [rstr "ταξί", rstr "διαδρομή"]] ]

/-- router_and_booking.py baggage fast-path guard: `αποσκευ|βαλίτσ|βαλιτσ`. -/
def baggageRx : Rx := ralts [rstr "αποσκευ", rstr "βαλίτσ", rstr "βαλιτσ"]

/-- router_and_booking.py heavy-baggage guard: `βαρι(ές|α)|heavy`. -/
def heavyRx : Rx :=
  ralts [Rx.seq (rstr "βαρι") (ralts [rstr "ές", rstr "α"]), rstr "heavy"]

/-- router_and_booking.py `POI_OK_PAT`. -/
def poiOkRx : Rx :=
  ralts [rstr "νοσοκομ", rstr "αεροδρομ", rstr "κτελ", rstr "ktel", rstr "σταθμ",
    rstr "λιμάνι", rstr "port", rstr "πανεπιστ", rstr "university", rstr "campus"]

/-- router_and_booking.py `_compose_when` full-datetime guard:
`^\d{4}-\d{2}-\d{2}\s+\d{2}:\d{2}` (used with `re.match`). -/
def composeFullRx : Rx :=
  rcat [rdigit, rdigit, rdigit, rdigit, Rx.lit '-', rdigit, rdigit, Rx.lit '-',
    rdigit, rdigit, rplus rws, rdigit, rdigit, Rx.lit ':', rdigit, rdigit]

/-! ## Calendar arithmetic

`datetime.now()`, `timedelta` addition and `strftime` formatting, for the
slices of `datetime` the booking flow uses. -/

/-- A Gregorian calendar date. -/
structure Date where
  y : Nat
  m : Nat
  d : Nat
deriving DecidableEq, Repr

/-- Gregorian leap-year rule. -/
def isLeap (y : Nat) : Bool := (y % 4 = 0 ∧ y % 100 ≠ 0) ∨ y % 400 = 0

/-- Length of a month. -/
def daysInMonth (y m : Nat) : Nat :=
  if m = 1 ∨ m = 3 ∨ m = 5 ∨ m = 7 ∨ m = 8 ∨ m = 10 ∨ m = 12 then 31
  else if m = 2 then (if isLeap y then 29 else 28) else 30

/-- Successor date. -/
def nextDay (dt : Date) : Date :=
  if dt.d < daysInMonth dt.y dt.m then ⟨dt.y, dt.m, dt.d + 1⟩
  else if dt.m < 12 then ⟨dt.y, dt.m + 1, 1⟩ else ⟨dt.y + 1, 1, 1⟩

/-- `timedelta(days = n)` addition. -/
def addDays : Date → Nat → Date
  | dt, 0 => dt
  | dt, n + 1 => addDays (nextDay dt) n

/-- Days contributed by the whole months before month `m` of year `y`. -/
def monthOffset (y m : Nat) : Nat :=
  ((List.range (m - 1)).map (fun i => daysInMonth y (i + 1))).sum

/-- Proleptic-Gregorian day number (0001-01-01 is day 1). -/
def dayNumber (dt : Date) : Nat :=
  365 * (dt.y - 1) + (dt.y - 1) / 4 + (dt.y - 1) / 400 - (dt.y - 1) / 100
  + monthOffset dt.y dt.m + dt.d

/-- Python `date.weekday()`: Monday = 0 … Sunday = 6 (0001-01-01 is a
Monday). -/
def weekday (dt : Date) : Nat := (dayNumber dt - 1) % 7

/-- Left-pad a numeral with zeros (`str.zfill`). -/
def padZ (n : Nat) (width : Nat) : String :=
  let s := toString n
  String.mk (List.replicate (width - s.length) '0') ++ s

/-- `strftime("%Y-%m-%d")`. -/
def fmtDate (dt : Date) : String :=
  padZ dt.y 4 ++ "-" ++ padZ dt.m 2 ++ "-" ++ padZ dt.d 2

/-- A wall-clock instant (`datetime.now()` is passed in as a parameter). -/
structure DT where
  date : Date
  hh : Nat
  mi : Nat
  ss : Nat
deriving DecidableEq, Repr

/-- `timedelta(minutes = n)` addition. -/
def addMinutes (t : DT) (n : Nat) : DT :=
  let total := t.hh * 60 + t.mi + n
  ⟨addDays t.date (total / 1440), total % 1440 / 60, total % 60, t.ss⟩

/-- `strftime("%Y-%m-%d %H:%M:%S")`. -/
def fmtDT (t : DT) : String :=
  fmtDate t.date ++ " " ++ padZ t.hh 2 ++ ":" ++ padZ t.mi 2 ++ ":" ++ padZ t.ss 2

/-! ## Capture scanners

The handful of patterns whose *captured groups* the code consumes are
embedded as direct scanners (the generic engine only returns booleans). -/

/-- Is the head of the remaining input a non-word character (or the input
exhausted)?  This is `\b` immediately after a word character. -/
def nonWordHead : List Char → Bool
  | [] => true
  | c :: _ => ¬ isWordChar c

/-- Attempt of `\b([01]?\d|2[0-3])[:\.](\d{2})\b` exactly at a split,
returning the two groups.  Hour alternatives are tried in the engine's
backtracking order: two-digit `[01]\d`, one-digit `\d`, then `2[0-3]`. -/
def timeTokAt (left right : List Char) : Option (String × String) :=
  if boundaryAt left right then
    let tryTail (hh : List Char) (rest : List Char) : Option (String × String) :=
      match rest with
      | sep :: m1 :: m2 :: rest2 =>
        if (sep = ':' ∨ sep = '.') ∧ isDigitChar m1 ∧ isDigitChar m2
            ∧ nonWordHead rest2 then
          some (String.mk hh, String.mk [m1, m2])
        else none
      | _ => none
    match right with
    | c0 :: c1 :: rest1 =>
      if (c0 = '0' ∨ c0 = '1') ∧ isDigitChar c1 then
        match tryTail [c0, c1] rest1 with
        | some r => some r
        | none =>
          if isDigitChar c0 then
            match tryTail [c0] (c1 :: rest1) with
            | some r => some r
            | none => if c0 = '2' ∧ '0' ≤ c1 ∧ c1 ≤ '3' then tryTail [c0, c1] rest1 else none
          else none
      else if isDigitChar c0 then
        match tryTail [c0] (c1 :: rest1) with
        | some r => some r
        | none => if c0 = '2' ∧ '0' ≤ c1 ∧ c1 ≤ '3' then tryTail [c0, c1] rest1 else none
      else none
    | _ => none
  else none

/-- Left-to-right scan for the time token (the walk `re.search`
performs). -/
def findTimeTok : List Char → List Char → Option (String × String)
  | left, [] => timeTokAt left []
  | left, c :: rest =>
    match timeTokAt left (c :: rest) with
    | some r => some r
    | none => findTimeTok (c :: left) rest

/-- Attempt of `\+?\d{10,15}` exactly at a position (greedy: at most 15
digits), returning group 0. -/
def phoneTokAt (right : List Char) : Option String :=
  match right with
  | '+' :: rest =>
    let run := rest.takeWhile isDigitChar
    if run.length ≥ 10 then some (String.mk ('+' :: run.take 15)) else none
  | _ =>
    let run := right.takeWhile isDigitChar
    if run.length ≥ 10 then some (String.mk (run.take 15)) else none

/-- Left-to-right scan for the phone token. -/
def findPhoneTok : List Char → Option String
  | [] => none
  | c :: rest =>
    match phoneTokAt (c :: rest) with
    | some r => some r
    | none => findPhoneTok rest

/-- Attempt of `\b(20\d{2}-\d{2}-\d{2})\b` exactly at a split. -/
def isoDateTokAt (left right : List Char) : Option String :=
  if boundaryAt left right then
    match right with
    | c1 :: c2 :: c3 :: c4 :: h1 :: d1 :: d2 :: h2 :: e1 :: e2 :: rest =>
      if c1 = '2' ∧ c2 = '0' ∧ isDigitChar c3 ∧ isDigitChar c4 ∧ h1 = '-'
          ∧ isDigitChar d1 ∧ isDigitChar d2 ∧ h2 = '-' ∧ isDigitChar e1 ∧ isDigitChar e2
          ∧ nonWordHead rest then
        some (String.mk [c1, c2, c3, c4, h1, d1, d2, h2, e1, e2])
      else none
    | _ => none
  else none

/-- Left-to-right scan for the ISO-date token. -/
def findIsoDateTok : List Char → List Char → Option String
  | left, [] => isoDateTokAt left []
  | left, c :: rest =>
    match isoDateTokAt left (c :: rest) with
    | some r => some r
    | none => findIsoDateTok (c :: left) rest

/-- `re.match(r"^(\d{1,2}):(\d{2})$", s)`, returning the two groups. -/
def hhmmFull (s : String) : Option (String × String) :=
  match s.data with
  | [a, ':', b, c] =>
    if isDigitChar a ∧ isDigitChar b ∧ isDigitChar c then
      some (String.mk [a], String.mk [b, c])
    else none
  | [a, a2, ':', b, c] =>
    if isDigitChar a ∧ isDigitChar a2 ∧ isDigitChar b ∧ isDigitChar c then
      some (String.mk [a, a2], String.mk [b, c])
    else none
  | _ => none

/-- First `(\d+)` run in a string, as a number (`int(m.group(1))`). -/
def firstDigitRun : List Char → Option Nat
  | [] => none
  | c :: rest =>
    if isDigitChar c then
      some (((c :: rest).takeWhile isDigitChar).foldl (fun acc d => acc * 10 + (d.toNat - 48)) 0)
    else firstDigitRun rest

/-! ## Session data model (`main.py` `SessionState`) -/

/-- main.py `FOLLOWUP_BUDGET_DEFAULT`. -/
def FOLLOWUP_BUDGET_DEFAULT : Int := 3

/-- The per-session dataclass.  `slots` and `booking_slots` hold strings in
every code path this development covers; `pending_trip` holds the mixed
values the LLM router merges. -/
structure SessionState where
  intent : Option String := none
  slots : List (String × String) := []
  budget : Int := FOLLOWUP_BUDGET_DEFAULT
  last_offered : Option String := none
  pending_trip : List (String × PVal) := []
  context_turns : List String := []
  booking_slots : List (String × String) := []
deriving DecidableEq, Repr

/-- A freshly constructed `SessionState()`. -/
def freshSession : SessionState := {}

/-- `SessionState(intent = i)`. -/
def freshWith (i : String) : SessionState := { intent := some i }

/-- `_get_state`: load-or-create; creating also persists the fresh state
(the store value after the call is returned alongside the state). -/
def get_state (store : Option SessionState) : SessionState × Option SessionState :=
  match store with
  | some st => (st, some st)
  | none => (freshSession, some freshSession)

/-- `_dec_budget`: decrement, clearing the session at zero or below. -/
def dec_budget (store : Option SessionState) : Option SessionState :=
  let st := (get_state store).1
  let st2 : SessionState := { st with budget := st.budget - 1 }
  if st2.budget ≤ 0 then none else some st2

/-- `_push_context`: append the user/assistant turn pair, keep the last 10
lines, persist. -/
def push_context (store : Option SessionState) (user_text reply_text : String) :
    Option SessionState :=
  let st := (get_state store).1
  let turns := takeLast 10 (st.context_turns ++ ["U: " ++ user_text, "A: " ++ reply_text])
  some { st with context_turns := turns }

/-! ## External collaborators

The spec isolates the entity extractors, the LLM router, the tool clients
and the reply-styling helpers as black boxes; they are threaded through as
parameters.  Defaults give the trivial instantiation used by witnesses. -/

/-- Parsed result of the LLM router (`llm_route`). -/
structure RouteRes where
  intent : String := ""
  slots : List (String × PVal) := []

/-- Bundle of external collaborators and ambient inputs:
`detectArea` = tools.detect_area_for_pharmacy, `extractRoute` =
tools._extract_route_free_text, `extractFromTo` = the booking prefill
extractor `_extract_from_to`, `llmRoute` = `llm_route`, `phrase` = the
`trendy_phrase` outcome ("" models failure/empty), `quote` = the
`trip_quote_nlp` reply inside `booking_confirm` ("" models failure),
`runTripQuote` / `finalizeBooking` / `quickConfirm` / `dispatch` = the
tool-calling handler bodies, `contactReply` = `_contact_reply()`,
`enrich` = `enrich_reply` (randomised styling), `predicted`/`score` = the
external classifier output, `now` = the wall clock. -/
structure Ext where
  detectArea : String → Option String := fun _ => none
  extractRoute : String → Option String × Option String := fun _ => (none, none)
  extractFromTo : String → Option String × Option String := fun _ => (none, none)
  llmRoute : String → String → RouteRes := fun _ _ => {}
  phrase : String := ""
  quote : String := ""
  runTripQuote : SessionState → SessionState × String := fun st => (st, "")
  finalizeBooking : SessionState → SessionState × String := fun st => (st, "")
  quickConfirm : SessionState → Option SessionState × String := fun st => (some st, "")
  dispatch : String → Option SessionState → String → Option SessionState × String :=
    fun _ store _ => (store, "")
  contactReply : String := ""
  enrich : String → String := id
  predicted : Option String := none
  score : ℚ := 0
  now : DT := ⟨⟨2026, 10, 12⟩, 12, 0, 0⟩

/-- Friendly-tone prefix used throughout the booking flow:
`reply = f"💬 ..." if the trendy phrase is non-empty`. -/
def withPhrase (phrase reply : String) : String :=
  if phrase ≠ "" then "💬 " ++ phrase ++ "\n\n" ++ reply else reply

/-! ## Booking slot-filling (`router_and_booking.py`) -/

/-- `BOOKING_REQUIRED`. -/
def BOOKING_REQUIRED : List String := ["origin", "destination", "pickup_time", "name", "phone"]

/-- `BOOKING_OPTIONAL`. -/
def BOOKING_OPTIONAL : List String :=
  ["pax", "luggage_count", "luggage_heavy", "notes", "pickup_date"]

/-- `normalize_phone`. -/
def normalize_phone (s : String) : Option String :=
  if s = "" then none
  else findPhoneTok (s.data.filter (fun c => c ≠ ' '))

/-- ASAP keywords of `parse_pickup_time`. -/
def asapKeywords : List String := ["άμεσα", "αμεσα", "τωρα", "τώρα", "now", "asap"]

/-- `parse_pickup_time`: "ASAP" on a keyword, `hh:mm` from the first
`\b([01]?\d|2[0-3])[:\.](\d{2})\b` token, else "". -/
def parse_pickup_time (text : String) : String :=
  let t := pyLower (pyStrip text)
  if asapKeywords.any (fun k => strContains t k) then "ASAP"
  else
    match findTimeTok [] t.data with
    | some (hh, mm) => hh ++ ":" ++ mm
    | none => ""

/-- `_DAYS`, in dict insertion order. -/
def daysTable : List (String × Nat) :=
  [("δευ", 0), ("δευτέρα", 0), ("δευτερα", 0),
   ("τρι", 1), ("τρίτη", 1), ("τριτη", 1),
   ("τετ", 2), ("τετάρτη", 2), ("τεταρτη", 2),
   ("πεμ", 3), ("πέμπτη", 3), ("πεμπτη", 3),
   ("παρ", 4), ("παρασκευή", 4), ("παρασκευη", 4),
   ("σαβ", 5), ("σάββατο", 5), ("σαββατο", 5),
   ("κυρ", 6), ("κυριακή", 6), ("κυριακη", 6)]

/-- `parse_date_hint` (relative to the injected clock `now`). -/
def parse_date_hint (text : String) (now : DT) : Option String :=
  let t := pyLower (pyStrip text)
  if ["σήμερα", "σημερα", "today"].any (fun w => strContains t w) then
    some (fmtDate now.date)
  else if ["αύριο", "αυριο", "tomorrow"].any (fun w => strContains t w) then
    some (fmtDate (addDays now.date 1))
  else if ["μεθαύριο", "μεθαυριο"].any (fun w => strContains t w) then
    some (fmtDate (addDays now.date 2))
  else
    match daysTable.find? (fun kv => strContains t kv.1) with
    | some kv =>
      let delta := (kv.2 + 7 - weekday now.date) % 7
      let delta := if delta = 0 then 7 else delta
      some (fmtDate (addDays now.date delta))
    | none => findIsoDateTok [] t.data

/-- `is_precise_address`: a digit somewhere, or a known POI keyword. -/
def is_precise_address (s : String) : Bool :=
  if s = "" then false
  else
    let s2 := pyStrip s
    s2.data.any isDigitChar ∨ rxSearch poiOkRx s2

/-- `refine_prompt`. -/
def refine_prompt (kind : String) : String :=
  "Δώσε **ακριβή διεύθυνση** " ++ (if kind = "origin" then "παραλαβής" else "προορισμού")
  ++ " (οδός & αριθμός ή γνωστό σημείο π.χ. Νοσοκομείο Ρίο)."

/-- `next_missing_booking_slot`: first required slot whose value is falsy. -/
def next_missing_booking_slot (slots : List (String × String)) : Option String :=
  BOOKING_REQUIRED.find? (fun k => ¬ truthyOpt (dget slots k))

/-- `PROMPTS`. -/
def PROMPTS (k : String) : String :=
  if k = "origin" then "Από πού σε παραλαμβάνουμε; (οδός & αριθμός ή γνωστό σημείο)"
  else if k = "destination" then "Πού πας; (οδός & αριθμός ή γνωστό σημείο)"
  else if k = "pickup_time" then "Πότε θες παραλαβή; (γράψε ‘άμεσα’ ή ώρα π.χ. 18:30)"
  else if k = "name" then "Πώς σε λένε;"
  else "Ποιο είναι το κινητό σου; (για επιβεβαίωση οδηγού)"

/-- `booking_prompt_next`. -/
def booking_prompt_next (st : SessionState) : String :=
  let ask := (next_missing_booking_slot st.booking_slots).getD "origin"
  if ask = "origin" ∨ ask = "destination" then refine_prompt ask else PROMPTS ask

/-- `booking_confirm`: build the confirmation summary and offer it
(`last_offered = "booking_confirm"`).  Required slots are present in every
reachable call; an absent key renders as "" here where Python would raise. -/
def booking_confirm (ext : Ext) (st : SessionState) : SessionState × String :=
  let s := st.booking_slots
  let sget := fun k => (dget s k).getD ""
  let quote_reply := if ext.quote = "" then "" else "\n\n" ++ ext.quote
  let summary :=
    "📋 **Σύνοψη κράτησης**\n"
    ++ "- Από: " ++ sget "origin" ++ "\n- Προς: " ++ sget "destination" ++ "\n"
    ++ "- Ημερομηνία: " ++ (dget s "pickup_date").getD "(σήμερα)" ++ "\n"
    ++ "- Ώρα: " ++ sget "pickup_time" ++ "\n"
    ++ "- Όνομα: " ++ sget "name" ++ "\n- Κινητό: " ++ sget "phone" ++ "\n"
    ++ "- Άτομα: " ++ (dget s "pax").getD "1" ++ "\n"
    ++ "- Αποσκευές: " ++ (dget s "luggage_count").getD "0"
    ++ " (βαριές: " ++ (dget s "luggage_heavy").getD "όχι" ++ ")\n"
    ++ quote_reply ++ "\n\nΝα προχωρήσω την κράτηση; (ναι/όχι)"
  ({ st with last_offered := some "booking_confirm" }, withPhrase ext.phrase summary)

/-- `booking_collect`: validate and store the next missing required slot,
then re-prompt or confirm.  A date hint in the input is stored into
`pickup_date` on every path before the slot branch, exactly as the code
mutates the aliased dict. -/
def booking_collect (ext : Ext) (st : SessionState) (user_text : String) :
    SessionState × String :=
  let slots0 := st.booking_slots
  let missing := next_missing_booking_slot slots0
  let val := pyStrip user_text
  let slots :=
    match parse_date_hint val ext.now with
    | some dh => dset slots0 "pickup_date" dh
    | none => slots0
  let stDated : SessionState := { st with booking_slots := slots }
  -- the five `if missing == ...` branches, with their early-return replies
  let step : Option (List (String × String)) × Option String :=
    if missing = some "phone" then
      match normalize_phone val with
      | none => (none, some "Δώσε μου ένα κινητό (π.χ. +3069…)")
      | some phone => (some (dset slots "phone" phone), none)
    else if missing = some "pickup_time" then
      let parsed := parse_pickup_time val
      if parsed = "" then (none, some "Γράψε ‘άμεσα’ ή μια ώρα π.χ. 18:30")
      else (some (dset slots "pickup_time" parsed), none)
    else if missing = some "origin" ∨ missing = some "destination" then
      if val = "" then (none, some (booking_prompt_next stDated))
      else if ¬ is_precise_address val then (none, some (refine_prompt (missing.getD "")))
      else (some (dset slots (missing.getD "") val), none)
    else if missing = some "name" then
      if val = "" then (none, some (booking_prompt_next stDated))
      else (some (dset slots "name" val), none)
    else (some slots, none)
  match step with
  | (_, some earlyReply) => (stDated, earlyReply)
  | (someSlots, none) =>
    let slots2 := someSlots.getD slots
    let st2 : SessionState := { st with booking_slots := slots2 }
    match next_missing_booking_slot slots2 with
    | some _ => (st2, withPhrase ext.phrase (booking_prompt_next st2))
    | none =>
      let (st3, reply) := booking_confirm ext st2
      (st3, withPhrase ext.phrase reply)

/-- `booking_start`: enter the booking intent, optionally reset the slot
bag, prefill only precise values from the source text, and prompt. -/
def booking_start (ext : Ext) (st : SessionState) (reset : Bool)
    (source_text : Option String) : SessionState × String :=
  let st1 : SessionState := { st with intent := some "BookingIntent" }
  let st2 := if reset then { st1 with booking_slots := [] } else st1
  let st3 :=
    match source_text with
    | none => st2
    | some src =>
      let (o, d) := ext.extractFromTo src
      let bs := st2.booking_slots
      let bs := match o with
                | some ov => if ov ≠ "" ∧ is_precise_address ov then dset bs "origin" ov else bs
                | none => bs
      let bs := match d with
                | some dv =>
                  if dv ≠ "" ∧ is_precise_address dv then dset bs "destination" dv else bs
                | none => bs
      let bs := match parse_date_hint src ext.now with
                | some dh => dset bs "pickup_date" dh
                | none => bs
      let pt := parse_pickup_time src
      let bs := if pt ≠ "" then dset bs "pickup_time" pt else bs
      { st2 with booking_slots := bs }
  (st3, withPhrase ext.phrase (booking_prompt_next st3))

/-- `_reset_booking`. -/
def reset_booking (st : SessionState) : SessionState :=
  { st with intent := none, booking_slots := [], last_offered := none }

/-- `_yesish`. -/
def yesish (v : Option PVal) : Bool :=
  match v with
  | none => false
  | some (.b b) => b
  | some (.s s) =>
    pyLower (pyStrip s) ∈ (["true", "yes", "1", "ναι", "βαριές", "βαριες", "heavy"] : List String)
  | some (.i n) => toString n ∈ (["true", "yes", "1", "ναι", "βαριές", "βαριες", "heavy"] : List String)

/-- `BAGGAGE_NOTE`. -/
def BAGGAGE_NOTE : String := "Αποσκευές έως 10kg: χωρίς επιβάρυνση. >10kg: +0,39€/τεμάχιο."

/-- Render a euro-cent amount with two decimals (`round(n * 0.39, 2)` is
exact cents for the counts arising here). -/
def fmtCents (cents : Nat) : String :=
  toString (cents / 100) ++ "." ++ padZ (cents % 100) 2

/-- `baggage_policy_reply`. -/
def baggage_policy_reply (st : SessionState) : SessionState × String :=
  let count := pget st.pending_trip "luggage_count"
  let heavy := pget st.pending_trip "luggage_heavy"
  let extraLine :=
    match count with
    | some (.i n) =>
      if n > 0 ∧ yesish heavy then
        ["Για " ++ toString n ++ " βαριές αποσκευές: ~" ++ fmtCents (n.toNat * 39)
          ++ "€ συνολικά."]
      else []
    | _ => []
  let tripLine :=
    if truthyPVal (pget st.pending_trip "origin") ∧ truthyPVal (pget st.pending_trip "destination")
    then ["Θες να το προσθέσω στην εκτίμηση διαδρομής;"] else []
  ({ st with last_offered := some "baggage_cost_info" },
   joinNL ([BAGGAGE_NOTE] ++ extraLine ++ tripLine))

/-- `ask_for_missing_slots`. -/
def ask_for_missing_slots (pending : List (String × PVal)) : String :=
  if ¬ truthyPVal (pget pending "origin") then "Ποια είναι η αφετηρία;"
  else if ¬ truthyPVal (pget pending "destination") then "Ποιος είναι ο προορισμός;"
  else "Πες μου αφετηρία και προορισμό."

/-- `str.zfill`. -/
def pyZfill (s : String) (w : Nat) : String :=
  String.mk (List.replicate (w - s.length) '0') ++ s

/-- `_compose_when`: canonical pickup datetime from the booking slots.
Precedence as in the code: a well-formed `pickup_datetime` wins, then
`pickup_date` + `HH:MM`, then ASAP = now + 10 min, then today + `HH:MM`,
else now + 20 min. -/
def compose_when (s : List (String × String)) (now : DT) : String :=
  let step3 : String :=
    match dget s "pickup_time" with
    | some time_s =>
      if pyUpper time_s = "ASAP" then fmtDT (addMinutes now 10)
      else
        match hhmmFull time_s with
        | some (hh, mm) => fmtDate now.date ++ " " ++ pyZfill hh 2 ++ ":" ++ mm ++ ":00"
        | none => fmtDT (addMinutes now 20)
    | none => fmtDT (addMinutes now 20)
  let step2 : String :=
    match dget s "pickup_date", dget s "pickup_time" with
    | some date, some time_s =>
      match hhmmFull time_s with
      | some (hh, mm) => date ++ " " ++ pyZfill hh 2 ++ ":" ++ mm ++ ":00"
      | none => step3
    | _, _ => step3
  match dget s "pickup_datetime" with
  | some df => if rxMatchStart composeFullRx df then pyTake df 19 else step2
  | none => step2

/-! ## Sticky-intent decision (`main.py`) -/

/-- `INTENT_TRIP`. -/
def INTENT_TRIP : String := "TripCostIntent"

/-- `INTENT_PHARMACY`. -/
def INTENT_PHARMACY : String := "OnDutyPharmacyIntent"

/-- `INTENT_HOSPITAL`. -/
def INTENT_HOSPITAL : String := "HospitalIntent"

/-- `INTENT_INFO`. -/
def INTENT_INFO : String := "PatrasLlmAnswersIntent"

/-- `INTENT_SERVICES`. -/
def INTENT_SERVICES : String := "ServicesAndToursIntent"

/-- `TRIGGERS` as a total map (`dict.get(intent, [])`). -/
def TRIGGERS (intent : String) : List Rx :=
  if intent = INTENT_TRIP then tripTriggerRxs
  else if intent = INTENT_HOSPITAL then hospitalTriggerRxs
  else if intent = INTENT_PHARMACY then pharmacyTriggerRxs
  else if intent = INTENT_INFO then infoTriggerRxs
  else if intent = INTENT_SERVICES then servicesTriggerRxs
  else []

/-- `_intent_trigger_hits`: how many trigger patterns of the intent match
the text. -/
def intent_trigger_hits (intent text : String) : Nat :=
  (TRIGGERS intent).countP (fun p => rxSearch p text)

/-- `_match_triggers`: does any trigger pattern of the intent match? -/
def match_triggers (text intent : String) : Bool :=
  (TRIGGERS intent).any (fun p => rxSearch p text)

/-- The fixed priority order of `_best_intent_from_triggers` and the
intent scan loops. -/
def intents_order : List String :=
  [INTENT_TRIP, INTENT_HOSPITAL, INTENT_PHARMACY, INTENT_SERVICES, INTENT_INFO]

/-- `DRIFT_SWITCH_MIN_HITS` (env default "1"). -/
def DRIFT_SWITCH_MIN_HITS : Nat := 1

/-- `RESET_ON_NO_MATCH` (env default "1"). -/
def RESET_ON_NO_MATCH : Bool := true

/-- The loop guard `if exclude and it == exclude: continue`. -/
def isExcluded (exclude : Option String) (it : String) : Bool :=
  match exclude with
  | some e => e ≠ "" ∧ it = e
  | none => false

/-- `_best_intent_from_triggers`: scan in priority order, keeping the
first intent with a strictly larger hit count. -/
def best_intent_from_triggers (text : String) (exclude : Option String) :
    Option String × Nat :=
  intents_order.foldl
    (fun acc it =>
      if isExcluded exclude it then acc
      else
        let hits := intent_trigger_hits it text
        if hits > acc.2 then (some it, hits) else acc)
    (none, 0)

/-- `is_cancel_message`: at most 16 characters and anchored match of
`CANCEL_RE`. -/
def is_cancel_message (text : String) : Bool :=
  let t := pyStrip text
  t.length ≤ 16 ∧ rxMatchStart cancelRx t

/-- `is_contact_intent`. -/
def is_contact_intent (text : String) : Bool := rxSearch contactRx text

/-- `_missing_slots`: pharmacy needs an area (detected from the text or
already in the slot bag), trip needs a destination (extracted from the
text) unless the message is a km query; other intents have none. -/
def missing_slots (ext : Ext) (intent : String) (text : String) (st : SessionState) :
    List String :=
  let t := pyLower text
  if intent = INTENT_PHARMACY then
    let area := if truthyOpt (ext.detectArea text) then ext.detectArea text
                else dget st.slots "area"
    if truthyOpt area then [] else ["area"]
  else if intent = INTENT_TRIP then
    let d := (ext.extractRoute text).2
    if rxSearch kmQueryRx t then []
    else if truthyOpt d then [] else ["destination"]
  else []

/-- Active-intent half of `_decide_intent` (drift switch, confirm-stay,
reset-on-no-match, missing-slot override, priority-order switch).  Note
this half never reads the external classifier. -/
def decide_active (ext : Ext) (st : SessionState) (t text cur : String) :
    String × Option SessionState :=
  let cur_hits := intent_trigger_hits cur t
  let cand := best_intent_from_triggers t none
  if cur_hits = 0 ∧ truthyOpt cand.1 ∧ cand.1 ≠ some cur ∧ cand.2 ≥ DRIFT_SWITCH_MIN_HITS then
    (cand.1.getD "", some (freshWith (cand.1.getD "")))
  else if cur_hits = 0 ∧ (¬ truthyOpt cand.1 ∨ cand.2 = 0) ∧ RESET_ON_NO_MATCH then
    if rxSearch confirmRx t then (cur, some st) else ("", none)
  else
    let missing := missing_slots ext cur text st
    if missing ≠ [] then
      if match_triggers t INTENT_TRIP then (INTENT_TRIP, some (freshWith INTENT_TRIP))
      else
        match intents_order.find? (fun i => i ≠ cur ∧ match_triggers t i) with
        | some i => (i, some (freshWith i))
        | none => (cur, some st)
    else
      match intents_order.find? (fun i => i ≠ cur ∧ match_triggers t i) with
      | some i => (i, some (freshWith i))
      | none => (cur, some st)

/-- The membership test `predicted_intent in (INTENT_TRIP, ...)`. -/
def isKnownIntent (p : Option String) : Bool :=
  match p with
  | some i => i ∈ intents_order
  | none => false

/-- No-active-intent half of `_decide_intent` (priority-order adoption,
then classifier fallback at confidence ≥ 0.70). -/
def decide_new (st : SessionState) (t : String) (predicted_intent : Option String)
    (score : ℚ) : String × Option SessionState :=
  match intents_order.find? (fun i => match_triggers t i) with
  | some i => (i, some (freshWith i))
  | none =>
    if isKnownIntent predicted_intent ∧ score ≥ 7 / 10 then
      (predicted_intent.getD "", some (freshWith (predicted_intent.getD "")))
    else ("", some st)

/-- `_decide_intent`: cancellation check, then the active or fresh
decision half.  Returns the decided intent together with the session
store after the call (the clear / save side effects). -/
def decide_intent (ext : Ext) (store : Option SessionState) (text : String)
    (predicted_intent : Option String) (score : ℚ) : String × Option SessionState :=
  let t := pyLower text
  let st := (get_state store).1
  if is_cancel_message t then ("", none)
  else if truthyOpt st.intent then decide_active ext st t text (st.intent.getD "")
  else decide_new st t predicted_intent score

/-! ## Router entry point and chat pipeline -/

/-- Merge of the LLM router's slot map into `pending_trip`, with the
string-to-bool / string-to-int coercions for the luggage keys. -/
def mergeRouteSlots (st : SessionState) (slots : List (String × PVal)) : SessionState :=
  let pend := slots.foldl
    (fun acc kv =>
      let skip : Bool := match kv.2 with | .s s => s = "" | _ => false
      if skip then acc
      else
        let acc := pset acc kv.1 kv.2
        let acc :=
          if kv.1 = "luggage_heavy" then
            match kv.2 with
            | .s s => pset acc kv.1 (.b (pyLower s ∈ (["true", "yes", "1", "ναι"] : List String)))
            | _ => acc
          else acc
        if kv.1 = "luggage_count" then
          match kv.2 with
          | .s s =>
            if s ≠ "" ∧ s.data.all isDigitChar then
              pset acc kv.1 (.i (s.data.foldl (fun n d => n * 10 + (d.toNat - 48)) 0))
            else acc
          | _ => acc
        else acc)
    st.pending_trip
  { st with pending_trip := pend }

/-- `maybe_handle_followup_or_booking`: the router-first entry point.
Returns the mutated state and `some reply` when it handles the message,
`none` to let the main pipeline continue. -/
def maybe_handle_followup_or_booking (ext : Ext) (st : SessionState) (user_text : String) :
    SessionState × Option String :=
  let txt := pyStrip user_text
  if tripcostTriggerRxs.any (fun p => rxSearch p txt) then (reset_booking st, none)
  else
    match intentSwitchTriggers.find? (fun kv => kv.2.any (fun p => rxSearch p txt)) with
    | some kv => ({ reset_booking st with intent := some kv.1 }, none)
    | none =>
      let is_short :=
        pyLower txt ∈ (["ναι", "οκ", "ok", "μάλιστα", "σωστά", "yes", "y"] : List String)
      let booking_intent := bookingTriggerRxs.any (fun p => rxSearch p txt)
      if is_short ∧ st.last_offered = some "trip_quote" then
        let (st2, r) := ext.runTripQuote st
        (st2, some r)
      else if is_short ∧ st.last_offered = some "booking_confirm" then
        let (st2, r) := ext.finalizeBooking st
        (st2, some r)
      else if is_short ∧ st.last_offered = some "baggage_cost_info"
          ∧ truthyPVal (pget st.pending_trip "origin")
          ∧ truthyPVal (pget st.pending_trip "destination") then
        let (st2, r) := ext.runTripQuote st
        (st2, some r)
      else if booking_intent ∧ st.intent ≠ some "BookingIntent" then
        let (st2, r) := booking_start ext st true (some txt)
        (st2, some r)
      else if st.intent = some "BookingIntent"
          ∧ BOOKING_REQUIRED.any (fun k => ¬ truthyOpt (dget st.booking_slots k)) then
        let (st2, r) := booking_collect ext st txt
        (st2, some r)
      else if rxSearch baggageRx txt then
        let pend :=
          match firstDigitRun txt.data with
          | some n => pset st.pending_trip "luggage_count" (.i n)
          | none => st.pending_trip
        let pend := if rxSearch heavyRx txt then pset pend "luggage_heavy" (.b true) else pend
        let (st2, r) := baggage_policy_reply { st with pending_trip := pend }
        (st2, some r)
      else
        let context := joinNL (takeLast 8 st.context_turns)
        let route := ext.llmRoute context txt
        let st2 := mergeRouteSlots st route.slots
        if route.intent = "BaggageCost" ∨ pget st2.pending_trip "luggage_count" ≠ none
            ∨ pget st2.pending_trip "luggage_heavy" ≠ none then
          let (st3, r) := baggage_policy_reply st2
          (st3, some r)
        else if route.intent = "TripCost" then
          if ¬ truthyPVal (pget st2.pending_trip "origin")
              ∨ ¬ truthyPVal (pget st2.pending_trip "destination") then
            (st2, some (ask_for_missing_slots st2.pending_trip))
          else
            let (st3, r) := ext.runTripQuote st2
            (st3, some r)
        else if route.intent = "Booking" then
          let (st3, r) := booking_start ext st2 false none
          (st3, some r)
        else (st2, none)

/-- The cancellation acknowledgment of the chat endpoint. -/
def cancelAck : String := "ΟΚ, το αφήνουμε εδώ 🙂 Πες μου τι άλλο θες να κανονίσουμε!"

/-- The `/chat` handler up to tool dispatch: contact override, router
first, the legacy quick-confirm path, intent decision, and the
cancellation acknowledgment; everything after a decided non-cancel intent
is the external tool dispatcher.  Returns the stored session and the
reply.  (The in-memory store aliases the loaded object, so router
mutations are visible to the subsequent steps even on the unhandled
path, exactly as modelled by threading `st1`.) -/
def process_message (ext : Ext) (store : Option SessionState) (message : String) :
    Option SessionState × String :=
  if message = "" then (store, "Στείλε μου ένα μήνυμα 🙂")
  else
    let text := pyStrip message
    let t_norm := pyLower text
    let st := (get_state store).1
    if is_contact_intent t_norm then
      let reply := ext.enrich ext.contactReply
      (push_context (some st) text reply, reply)
    else
      match maybe_handle_followup_or_booking ext st text with
      | (st1, some handled) =>
        let reply := ext.enrich handled
        (push_context (some st1) text reply, reply)
      | (st1, none) =>
        if rxSearch confirmRx t_norm ∧ st1.intent = some INTENT_TRIP
            ∧ truthyOpt (dget st1.slots "last_trip_query")
            ∧ st1.last_offered ≠ some "booking_confirm"
            ∧ st1.last_offered ≠ some "trip_quote"
            ∧ st1.last_offered ≠ some "baggage_cost_info" then
          ext.quickConfirm st1
        else
          let dec := decide_intent ext (some st1) text ext.predicted ext.score
          if dec.1 = "" ∧ is_cancel_message t_norm then
            let reply := ext.enrich cancelAck
            (push_context dec.2 text reply, reply)
          else ext.dispatch dec.1 dec.2 text

/-! ## Helper lemmas -/

theorem find_replace_ne (d : List (String × String)) (k k2 v : String) (h : k ≠ k2) :
    ((d.map (fun kv => if kv.1 = k2 then (k2, v) else kv)).find?
      (fun kv => kv.1 = k)).map (fun x => x.2)
    = (d.find? (fun kv => kv.1 = k)).map (fun x => x.2) := by
  induction d with
  | nil => simp
  | cons hd tl ih =>
    by_cases h2 : hd.1 = k2
    · simp only [List.map_cons, if_pos h2, List.find?]
      rw [show (decide (k2 = k)) = false from by simp [Ne.symm h]]
      rw [show (decide (hd.1 = k)) = false from by simp [h2, Ne.symm h]]
      exact ih
    · simp only [List.map_cons, if_neg h2, List.find?]
      cases hk : decide (hd.1 = k) with
      | true => simp
      | false => exact ih

theorem find_append_ne (d : List (String × String)) (k k2 v : String) (h : k ≠ k2) :
    ((d ++ [(k2, v)]).find? (fun kv => kv.1 = k)).map (fun x => x.2)
    = (d.find? (fun kv => kv.1 = k)).map (fun x => x.2) := by
  induction d with
  | nil => simp [List.find?, Ne.symm h]
  | cons hd tl ih =>
    simp only [List.cons_append, List.find?]
    cases hk : decide (hd.1 = k) with
    | true => simp
    | false => exact ih

theorem dget_dset_ne (d : List (String × String)) (k k2 v : String) (h : k ≠ k2) :
    dget (dset d k2 v) k = dget d k := by
  unfold dget dset
  split
  · exact find_replace_ne d k k2 v h
  · exact find_append_ne d k k2 v h

theorem next_missing_dset_date (d : List (String × String)) (v : String) :
    next_missing_booking_slot (dset d "pickup_date" v) = next_missing_booking_slot d := by
  unfold next_missing_booking_slot BOOKING_REQUIRED
  have h1 := dget_dset_ne d "origin" "pickup_date" v (by decide)
  have h2 := dget_dset_ne d "destination" "pickup_date" v (by decide)
  have h3 := dget_dset_ne d "pickup_time" "pickup_date" v (by decide)
  have h4 := dget_dset_ne d "name" "pickup_date" v (by decide)
  have h5 := dget_dset_ne d "phone" "pickup_date" v (by decide)
  simp only [List.find?, h1, h2, h3, h4, h5]

theorem match_triggers_one_hit (t i : String) (h : match_triggers t i = true) :
    1 ≤ intent_trigger_hits i t := by
  unfold match_triggers at h
  unfold intent_trigger_hits
  rcases List.any_eq_true.mp h with ⟨p, hp, hps⟩
  exact List.countP_pos_iff.mpr ⟨p, hp, hps⟩

theorem best_fold_some (t : String) (exc : Option String) (l : List String)
    (acc : Option String × Nat)
    (hacc : ∀ c h, acc = (some c, h) → intent_trigger_hits c t = h ∧ 1 ≤ h) :
    ∀ c h,
      l.foldl
        (fun acc it =>
          if isExcluded exc it then acc
          else
            let hits := intent_trigger_hits it t
            if hits > acc.2 then (some it, hits) else acc)
        acc = (some c, h) →
      intent_trigger_hits c t = h ∧ 1 ≤ h := by
  induction l generalizing acc with
  | nil => exact hacc
  | cons hd tl ih =>
    intro c h
    simp only [List.foldl_cons]
    apply ih
    intro c2 h2 hstep
    split at hstep
    · exact hacc c2 h2 hstep
    · split at hstep
      · next hgt =>
        have he1 : some hd = some c2 := congrArg Prod.fst hstep
        have he2 : intent_trigger_hits hd t = h2 := congrArg Prod.snd hstep
        cases Option.some.inj he1
        exact ⟨he2, by omega⟩
      · exact hacc c2 h2 hstep

theorem best_some_hits (t : String) (exc : Option String) (c : String) (h : Nat)
    (H : best_intent_from_triggers t exc = (some c, h)) :
    intent_trigger_hits c t = h ∧ 1 ≤ h := by
  unfold best_intent_from_triggers at H
  exact best_fold_some t exc intents_order (none, 0) (by intro c2 h2 hx; cases hx) c h H

/-! ## Acceptance predicates for the pickup-time gate

`splitsOf` enumerates the scan positions of `re.search`; the
`accepts…PickupTime` predicates re-state acceptance declaratively: the
first follows the amended reading (any two-digit minute, as the code's
`(\d{2})` group allows), the second the claim's reading (minute ≤ 59). -/

/-- All (reversed-left, right) split points of a string, in scan order. -/
def splitsAux (left right : List Char) : List (List Char × List Char) :=
  match right with
  | [] => [(left, [])]
  | c :: rest => (left, c :: rest) :: splitsAux (c :: left) rest

/-- Split points starting from the beginning. -/
def splitsOf (s : List Char) : List (List Char × List Char) := splitsAux [] s

/-- Numeric value of an ASCII digit. -/
def digitVal (c : Char) : Nat := c.toNat - 48

/-- Amended acceptance: an ASAP keyword occurs, or some split point
carries a word-boundary-delimited time token with hour 0–23 and any two
minute digits (00–99). -/
def acceptsPickupTime (v : String) : Bool :=
  let t := pyLower (pyStrip v)
  asapKeywords.any (fun k => strContains t k)
  ∨ (splitsOf t.data).any (fun pr => (timeTokAt pr.1 pr.2).isSome)

/-- Claim-side minute check: two digits whose value is at most 59. -/
def claimMinuteOk (m1 m2 : Char) : Bool :=
  isDigitChar m1 ∧ isDigitChar m2 ∧ digitVal m1 * 10 + digitVal m2 ≤ 59

/-- Claim-side two-digit-hour token shape (hour 00–23). -/
def claimTwoDigitHour : List Char → Bool
  | h1 :: h2 :: sep :: m1 :: m2 :: rest =>
    isDigitChar h1 && isDigitChar h2 && decide (digitVal h1 * 10 + digitVal h2 ≤ 23)
    && (sep == ':' || sep == '.') && claimMinuteOk m1 m2 && nonWordHead rest
  | _ => false

/-- Claim-side one-digit-hour token shape (hour 0–9). -/
def claimOneDigitHour : List Char → Bool
  | h1 :: sep :: m1 :: m2 :: rest =>
    isDigitChar h1 && (sep == ':' || sep == '.') && claimMinuteOk m1 m2 && nonWordHead rest
  | _ => false

/-- Claim-side time token at a split point: word boundary, an hour 0–23
written with one digit or two digits (two-digit values 00–23), a `:` or
`.` separator, and a minute 00–59, ending at a word boundary. -/
def claimTimeTokenAt (left right : List Char) : Bool :=
  boundaryAt left right && (claimTwoDigitHour right || claimOneDigitHour right)

/-- The claim's acceptance predicate: ASAP keyword, or a valid 24-hour
time with minute 0–59. -/
def claimAcceptsPickupTime (v : String) : Bool :=
  let t := pyLower (pyStrip v)
  asapKeywords.any (fun k => strContains t k)
  ∨ (splitsOf t.data).any (fun pr => claimTimeTokenAt pr.1 pr.2)

theorem findTimeTok_isSome_eq_any (left right : List Char) :
    (findTimeTok left right).isSome
    = (splitsAux left right).any (fun pr => (timeTokAt pr.1 pr.2).isSome) := by
  induction right generalizing left with
  | nil => simp [findTimeTok, splitsAux]
  | cons c rest ih =>
    simp only [findTimeTok, splitsAux, List.any_cons]
    cases h : timeTokAt left (c :: rest) with
    | none => simp [h, ih]
    | some r => simp [h]

theorem hh_colon_mm_ne_empty (a b : String) : (a ++ ":" ++ b) ≠ "" := by
  intro h
  have := congrArg String.data h
  simp [String.data_append] at this

theorem parse_pickup_time_ne_iff (v : String) :
    (parse_pickup_time v ≠ "") ↔ acceptsPickupTime v = true := by
  unfold parse_pickup_time acceptsPickupTime splitsOf
  cases ha : asapKeywords.any (fun k => strContains (pyLower (pyStrip v)) k) with
  | true => simp [ha]
  | false =>
    simp only [ha, Bool.false_eq_true, if_false, Bool.false_or]
    rw [← findTimeTok_isSome_eq_any]
    cases hf : findTimeTok [] (pyLower (pyStrip v)).data with
    | none => simp
    | some r => simpa using hh_colon_mm_ne_empty r.1 r.2

/-! ## Claim theorems -/

/-- C4: the persisted budget of a stored session is always positive —
`_dec_budget` deletes the session whenever the decremented budget reaches
0 or below, so the next `_get_state` returns a freshly created session;
in particular from budget 1 a single decrement leaves the store
indistinguishable from a fresh one. -/
theorem budget_always_positive_and_exhaustion_clears :
    (∀ (store : Option SessionState) (st2 : SessionState),
      dec_budget store = some st2 → 0 < st2.budget)
    ∧ (∀ st : SessionState, st.budget = 1 →
        dec_budget (some st) = none
        ∧ (get_state (dec_budget (some st))).1 = freshSession) := by
  constructor
  · intro store st2 h
    simp only [dec_budget] at h
    split at h
    · cases h
    · next hle =>
      cases h
      simp only [not_le] at hle
      dsimp only at hle ⊢
      omega
  · intro st h1
    have hd : dec_budget (some st) = none := by
      unfold dec_budget get_state
      rw [if_pos (by simp [h1])]
    exact ⟨hd, by rw [hd]; rfl⟩

/-- Witness for C4 at concrete inputs: a fresh session decrements from 3
to 2 (positive), and a session with budget 1, an active intent and filled
slots is erased by one decrement, after which `get` yields the default. -/
theorem budget_always_positive_and_exhaustion_clears_witness :
    (0 < ({ freshSession with budget := 2 } : SessionState).budget)
    ∧ dec_budget (some { freshSession with
        budget := 1,
        intent := some "TripCostIntent",
        slots := [("area", "Πάτρα")] }) = none := by
  constructor
  · exact budget_always_positive_and_exhaustion_clears.1 (some freshSession) _ rfl
  · exact (budget_always_positive_and_exhaustion_clears.2 _ rfl).1

/-- C9: once an intent is active (a Python-truthy `session.intent`), the
decision and the resulting store are identical for any two classifier
outputs — `_decide_intent` reads `predicted_intent`/`score` only on the
no-active-intent path. -/
theorem classifier_independent_once_active (ext : Ext) (st : SessionState)
    (cur text : String) (p1 p2 : Option String) (s1 s2 : ℚ)
    (hi : st.intent = some cur) (hc : cur ≠ "") :
    decide_intent ext (some st) text p1 s1 = decide_intent ext (some st) text p2 s2 := by
  unfold decide_intent
  have ht : truthyOpt (get_state (some st)).1.intent = true := by
    simp [get_state, truthyOpt, hi, hc]
  simp only [ht, if_true]

/-- Witness for C9: with an active pharmacy intent, a high-confidence
TripCost prediction and no prediction at all give the same result. -/
theorem classifier_independent_once_active_witness :
    decide_intent {} (some { freshSession with intent := some "OnDutyPharmacyIntent" })
      "καλησπέρα" (some "TripCostIntent") 1
    = decide_intent {} (some { freshSession with intent := some "OnDutyPharmacyIntent" })
      "καλησπέρα" none 0 :=
  classifier_independent_once_active {} _ "OnDutyPharmacyIntent" "καλησπέρα"
    (some "TripCostIntent") none 1 0 rfl (by decide)

/-- C10: with `pickup_time = "ASAP"` in a booking slot map (keys drawn
from the required and optional booking slots, which never include the
`pickup_datetime` override), `_compose_when` returns now + 10 minutes in
`YYYY-MM-DD HH:MM:SS` form, silently discarding any stored
`pickup_date`. -/
theorem compose_when_asap_ignores_date (s : List (String × String)) (now : DT)
    (hkeys : ∀ kv ∈ s, kv.1 ∈ BOOKING_REQUIRED ++ BOOKING_OPTIONAL)
    (ht : dget s "pickup_time" = some "ASAP") :
    compose_when s now = fmtDT (addMinutes now 10) := by
  have hdt : dget s "pickup_datetime" = none := by
    unfold dget
    cases hfind : s.find? (fun kv => kv.1 = "pickup_datetime") with
    | none => rfl
    | some kv =>
      have hkey : kv.1 = "pickup_datetime" := by
        have := List.find?_some hfind
        simpa using this
      have hmem : kv ∈ s := List.mem_of_find?_eq_some hfind
      have := hkeys kv hmem
      rw [hkey] at this
      simp [BOOKING_REQUIRED, BOOKING_OPTIONAL] at this
  unfold compose_when
  rw [hdt, ht]
  have hff : hhmmFull "ASAP" = none := by decide
  have hup : pyUpper "ASAP" = "ASAP" := by decide
  cases hdate : dget s "pickup_date" with
  | none => simp [hff, hup]
  | some d => simp [hff, hup]

/-- Witness for C10: slots holding ASAP plus tomorrow's date hint compose
to the concrete clock plus ten minutes, across a midnight rollover. -/
theorem compose_when_asap_ignores_date_witness :
    compose_when [("pickup_time", "ASAP"), ("pickup_date", "2026-10-13")]
      ⟨⟨2026, 10, 12⟩, 23, 55, 7⟩ = "2026-10-13 00:05:07" := by
  rw [compose_when_asap_ignores_date _ _ (by decide) (by decide)]
  decide

/-- Helper for C3: in the ambiguous-no-match state (zero hits for the
current intent and for every candidate), a confirmation word keeps the
current intent and leaves the stored session untouched. -/
theorem decide_confirm_case (ext : Ext) (st : SessionState) (cur text : String)
    (p : Option String) (s : ℚ)
    (hi : st.intent = some cur)
    (hcan : is_cancel_message (pyLower text) = false)
    (hne : cur ≠ "")
    (h1 : intent_trigger_hits cur (pyLower text) = 0)
    (h2 : best_intent_from_triggers (pyLower text) none = (none, 0))
    (h3 : rxSearch confirmRx (pyLower text) = true) :
    decide_intent ext (some st) text p s = (cur, some st) := by
  unfold decide_intent
  have hst : (get_state (some st)).1 = st := rfl
  have ht : truthyOpt st.intent = true := by simp [truthyOpt, hi, hne]
  have hcur : st.intent.getD "" = cur := by simp [hi]
  simp only [hst, hcan, Bool.false_eq_true, if_false, ht, if_true, hcur]
  unfold decide_active
  simp only [hcur]
  rw [h1, h2]
  simp [truthyOpt, DRIFT_SWITCH_MIN_HITS, RESET_ON_NO_MATCH, h3]

/-- C3: a bare confirmation ("ναι", "ok", "οκ", "σωστά", "ακριβώς") never
resets the session — for every intent in the intent set, `_decide_intent`
returns the active intent and the stored session is unchanged. -/
theorem confirmation_never_resets (ext : Ext) (st : SessionState) (cur text : String)
    (p : Option String) (s : ℚ)
    (hi : st.intent = some cur)
    (hcur : cur ∈ intents_order)
    (ht : text ∈ (["ναι", "ok", "οκ", "σωστά", "ακριβώς"] : List String)) :
    decide_intent ext (some st) text p s = (cur, some st) := by
  fin_cases hcur <;> fin_cases ht <;>
    exact decide_confirm_case ext st _ _ p s hi (by decide) (by decide) (by decide)
      (by decide) (by decide)

/-- C1 counterexample: with the Services intent active and the text
"πόσο κοστίζει η εκδρομή", the current intent has a trigger hit
(`εκδρομ`), yet `_decide_intent` still switches to TripCost (its
final priority-order loop ignores the current intent's hit count),
refuting "any text with hits(I) ≥ 1 never switches". -/
theorem switch_despite_current_hits_cex :
    intent_trigger_hits "ServicesAndToursIntent" (pyLower "πόσο κοστίζει η εκδρομή") = 1
    ∧ (decide_intent {} (some { freshSession with intent := some "ServicesAndToursIntent" })
        "πόσο κοστίζει η εκδρομή" none 0)
      = ("TripCostIntent", some (freshWith "TripCostIntent")) := by
  constructor
  · decide
  · decide

/-- C1 amended: switching away from an active intent I to J does require
positive candidate evidence — every switch target J has at least one
trigger hit on the (lower-cased) text — but positive hits for I do not
prevent a switch: after the drift branches, `_decide_intent` still
switches to the first other intent in priority order with a trigger
match. -/
theorem switch_requires_candidate_trigger (ext : Ext) (st : SessionState)
    (cur text J : String) (p : Option String) (s : ℚ)
    (hi : st.intent = some cur) (hne : cur ≠ "")
    (hJ : (decide_intent ext (some st) text p s).1 = J)
    (hJne : J ≠ "") (hJcur : J ≠ cur) :
    1 ≤ intent_trigger_hits J (pyLower text) := by
  have hst : (get_state (some st)).1 = st := rfl
  have ht : truthyOpt st.intent = true := by simp [truthyOpt, hi, hne]
  have hcur : st.intent.getD "" = cur := by simp [hi]
  simp only [decide_intent, hst, ht, if_true, hcur] at hJ
  by_cases hcan : is_cancel_message (pyLower text) = true
  · rw [if_pos hcan] at hJ
    exact absurd hJ.symm hJne
  · rw [if_neg hcan] at hJ
    simp only [decide_active, hcur] at hJ
    split at hJ
    · next hdrift =>
      obtain ⟨-, htr, -, hmin⟩ := hdrift
      cases hc : (best_intent_from_triggers (pyLower text) none).1 with
      | none => rw [hc] at htr; cases htr
      | some c =>
        have hbest : best_intent_from_triggers (pyLower text) none
            = (some c, (best_intent_from_triggers (pyLower text) none).2) := by
          rw [← hc]
        obtain ⟨hhits, hpos⟩ := best_some_hits _ none c _ hbest
        rw [hc] at hJ
        simp only [Option.getD_some] at hJ
        rw [← hJ, hhits]
        exact hpos
    · split at hJ
      · split at hJ
        · exact absurd hJ.symm hJcur
        · exact absurd hJ.symm hJne
      · split at hJ
        · split at hJ
          · next hm =>
            rw [← hJ]
            exact match_triggers_one_hit _ _ hm
          · split at hJ
            · next i heq =>
              have := List.find?_some heq
              simp only [decide_eq_true_eq] at this
              rw [← hJ]
              exact match_triggers_one_hit _ _ this.2
            · exact absurd hJ.symm hJcur
        · split at hJ
          · next i heq =>
            have := List.find?_some heq
            simp only [decide_eq_true_eq] at this
            rw [← hJ]
            exact match_triggers_one_hit _ _ this.2
          · exact absurd hJ.symm hJcur

/-- Witness for C1 amended: the Services-to-TripCost switch above indeed
lands on an intent with a trigger hit. -/
theorem switch_requires_candidate_trigger_witness :
    1 ≤ intent_trigger_hits "TripCostIntent" (pyLower "πόσο κοστίζει η εκδρομή") :=
  switch_requires_candidate_trigger {}
    { freshSession with intent := some "ServicesAndToursIntent" }
    "ServicesAndToursIntent" "πόσο κοστίζει η εκδρομή" "TripCostIntent" none 0
    rfl (by decide) (by decide) (by decide) (by decide)

theorem find_map_self (d : List (String × String)) (k v : String)
    (h : d.any (fun kv => kv.1 = k) = true) :
    ((d.map (fun kv => if kv.1 = k then (k, v) else kv)).find?
      (fun kv => kv.1 = k)).map (fun x => x.2) = some v := by
  induction d with
  | nil => cases h
  | cons hd tl ih =>
    by_cases h2 : hd.1 = k
    · simp [List.find?, h2]
    · simp only [List.map_cons, if_neg h2, List.find?]
      rw [show (decide (hd.1 = k)) = false from by simp [h2]]
      exact ih (by simpa [List.any_cons, h2] using h)

theorem find_none_of_any_false (d : List (String × String)) (k : String)
    (h : d.any (fun kv => kv.1 = k) = false) :
    d.find? (fun kv => kv.1 = k) = none := by
  induction d with
  | nil => rfl
  | cons hd tl ih =>
    simp only [List.any_cons, Bool.or_eq_false_iff] at h
    simp only [List.find?, h.1]
    exact ih h.2

theorem dget_dset_self (d : List (String × String)) (k v : String) :
    dget (dset d k v) k = some v := by
  unfold dget dset
  split
  · next h => exact find_map_self d k v h
  · next h =>
    rw [List.find?_append, find_none_of_any_false d k (Bool.eq_false_iff.mpr h)]
    simp [List.find?]

/-- Helper for C5/C6/C8: `next_missing_booking_slot` reads only required
keys, so the opportunistic `pickup_date` write never changes it; and the
early-return branches keep `last_offered` untouched. -/
theorem next_missing_some_not_truthy (d : List (String × String)) (m : String)
    (h : next_missing_booking_slot d = some m) :
    truthyOpt (dget d m) = false := by
  unfold next_missing_booking_slot at h
  have := List.find?_some h
  simpa using this

/-- C6: the address-precision gate of `booking_collect`.  While the next
missing slot is `origin` or `destination`, a non-empty value with no
digit and no POI keyword is rejected: the slot is not stored, the flow
re-prompts with the refine message, and the next missing slot is
unchanged; and concretely "εκεί κοντά" is rejected for the destination
while "Ζαΐμη 2" is stored and the flow advances to `pickup_time`. -/
theorem address_precision_gate :
    (∀ (ext : Ext) (st : SessionState) (v m : String),
      next_missing_booking_slot st.booking_slots = some m →
      (m = "origin" ∨ m = "destination") →
      pyStrip v ≠ "" →
      is_precise_address (pyStrip v) = false →
      (booking_collect ext st v).2 = refine_prompt m
      ∧ dget (booking_collect ext st v).1.booking_slots m = dget st.booking_slots m
      ∧ next_missing_booking_slot (booking_collect ext st v).1.booking_slots = some m)
    ∧ (booking_collect {} { freshSession with
        intent := some "BookingIntent",
        booking_slots := [("origin", "Αγίου Ανδρέου 5")] } "εκεί κοντά").2
      = refine_prompt "destination"
    ∧ (booking_collect {} { freshSession with
        intent := some "BookingIntent",
        booking_slots := [("origin", "Αγίου Ανδρέου 5")] } "εκεί κοντά").1.booking_slots
      = [("origin", "Αγίου Ανδρέου 5")]
    ∧ dget (booking_collect {} { freshSession with
        intent := some "BookingIntent",
        booking_slots := [("origin", "Αγίου Ανδρέου 5")] } "Ζαΐμη 2").1.booking_slots
        "destination" = some "Ζαΐμη 2"
    ∧ next_missing_booking_slot (booking_collect {} { freshSession with
        intent := some "BookingIntent",
        booking_slots := [("origin", "Αγίου Ανδρέου 5")] } "Ζαΐμη 2").1.booking_slots
      = some "pickup_time" := by
  refine ⟨?_, by decide, by decide, by decide, by decide⟩
  intro ext st v m hm hmd hv hp
  have hmphone : m ≠ "phone" := by rcases hmd with rfl | rfl <;> decide
  have hmtime : m ≠ "pickup_time" := by rcases hmd with rfl | rfl <;> decide
  have hmdate : m ≠ "pickup_date" := by rcases hmd with rfl | rfl <;> decide
  simp only [booking_collect, hm]
  have c1 : (some m = some "phone") = False := by simp [hmphone]
  have c2 : (some m = some "pickup_time") = False := by simp [hmtime]
  have c3 : (some m = some "origin" ∨ some m = some "destination") = True := by
    rcases hmd with rfl | rfl <;> simp
  simp only [c1, c2, c3, if_false, if_true]
  rw [if_neg (by exact hv), if_pos (by simp [hp])]
  simp only [Option.getD_some]
  cases hdh : parse_date_hint (pyStrip v) ext.now with
  | none =>
    refine ⟨by trivial, by trivial, ?_⟩
    simpa using hm
  | some dh =>
    refine ⟨by trivial, ?_, ?_⟩
    · exact dget_dset_ne st.booking_slots m "pickup_date" dh hmdate
    · rw [next_missing_dset_date]
      exact hm

/-- Witness for C6's universal part: the vague "εκεί κοντά" at the
destination step re-prompts and leaves the destination unset. -/
theorem address_precision_gate_witness :
    (booking_collect {} { freshSession with
      intent := some "BookingIntent",
      booking_slots := [("origin", "Αγίου Ανδρέου 5")] } "εκεί κοντά").2
    = refine_prompt "destination"
    ∧ dget (booking_collect {} { freshSession with
        intent := some "BookingIntent",
        booking_slots := [("origin", "Αγίου Ανδρέου 5")] } "εκεί κοντά").1.booking_slots
      "destination" = none :=
  ⟨(address_precision_gate.1 {} _ "εκεί κοντά" "destination" (by decide) (by decide)
      (by decide) (by decide)).1,
   by
    rw [(address_precision_gate.1 {} _ "εκεί κοντά" "destination" (by decide) (by decide)
      (by decide) (by decide)).2.1]
    decide⟩

/-- C8 counterexample: "18:75" has no ASAP keyword and no time token
with minute ≤ 59, yet `booking_collect` accepts it into `pickup_time`
(the code's minute group is `(\d{2})`, unrestricted), refuting the
"minute 0–59" half of the claim. -/
theorem pickup_minute_range_cex :
    claimAcceptsPickupTime "18:75" = false
    ∧ dget (booking_collect {} { freshSession with
        intent := some "BookingIntent",
        booking_slots := [("origin", "Αγίου Ανδρέου 5"), ("destination", "Ζαΐμη 2")] }
        "18:75").1.booking_slots "pickup_time" = some "18:75" := by
  constructor
  · decide
  · decide

/-- C8 amended: while `pickup_time` is the next missing slot, the value
is accepted (stored as a truthy `pickup_time`) iff it contains an ASAP
keyword or a word-boundary-delimited time with hour 0–23, `:` or `.` as
separator, and ANY two-digit minute (00–99); otherwise the slot stays
empty and the flow re-prompts. -/
theorem pickup_time_gate_amended (ext : Ext) (st : SessionState) (v : String)
    (hm : next_missing_booking_slot st.booking_slots = some "pickup_time") :
    truthyOpt (dget (booking_collect ext st v).1.booking_slots "pickup_time")
      = acceptsPickupTime (pyStrip v)
    ∧ (acceptsPickupTime (pyStrip v) = false →
        (booking_collect ext st v).2 = "Γράψε ‘άμεσα’ ή μια ώρα π.χ. 18:30") := by
  have c1 : ((some "pickup_time" : Option String) = some "phone") = False := by simp
  have c2 : ((some "pickup_time" : Option String) = some "pickup_time") = True := by simp
  simp only [booking_collect, hm, c1, c2, if_false, if_true]
  by_cases hpp : parse_pickup_time (pyStrip v) = ""
  · have hacc : acceptsPickupTime (pyStrip v) = false := by
      cases h2 : acceptsPickupTime (pyStrip v) with
      | false => rfl
      | true => exact absurd hpp ((parse_pickup_time_ne_iff (pyStrip v)).mpr h2)
    rw [if_pos hpp, hacc]
    cases hdh : parse_date_hint (pyStrip v) ext.now with
    | none =>
      simp only [hdh]
      refine ⟨?_, fun _ => by trivial⟩
      simpa using next_missing_some_not_truthy st.booking_slots _ hm
    | some dh =>
      simp only [hdh]
      refine ⟨?_, fun _ => by trivial⟩
      rw [dget_dset_ne st.booking_slots "pickup_time" "pickup_date" dh (by decide)]
      simpa using next_missing_some_not_truthy st.booking_slots _ hm
  · have hacc : acceptsPickupTime (pyStrip v) = true :=
      (parse_pickup_time_ne_iff (pyStrip v)).mp hpp
    rw [if_neg hpp, hacc]
    refine ⟨?_, fun hfa => by cases hfa⟩
    simp only [Option.getD_some]
    cases hnm : next_missing_booking_slot
        (dset (match parse_date_hint (pyStrip v) ext.now with
          | some dh => dset st.booking_slots "pickup_date" dh
          | none => st.booking_slots) "pickup_time" (parse_pickup_time (pyStrip v))) with
    | some k =>
      simp only [hnm]
      rw [dget_dset_self]
      simpa [truthyOpt] using hpp
    | none =>
      simp only [hnm, booking_confirm]
      rw [dget_dset_self]
      simpa [truthyOpt] using hpp

/-- Witness for C8 amended: "18.30" (dot separator) is accepted into the
pickup-time slot. -/
theorem pickup_time_gate_amended_witness :
    truthyOpt (dget (booking_collect {} { freshSession with
      intent := some "BookingIntent",
      booking_slots := [("origin", "Αγίου Ανδρέου 5"), ("destination", "Ζαΐμη 2")] }
      "18.30").1.booking_slots "pickup_time") = acceptsPickupTime (pyStrip "18.30")
    ∧ acceptsPickupTime (pyStrip "18.30") = true :=
  ⟨(pickup_time_gate_amended {} _ "18.30" (by decide)).1, by decide⟩

/-- Helper for C5: one `booking_collect` step either leaves
`last_offered` unchanged, or has moved it to `booking_confirm` with no
required slot missing any more. -/
theorem collect_offer_cases (ext : Ext) (st : SessionState) (v : String) :
    (booking_collect ext st v).1.last_offered = st.last_offered
    ∨ ((booking_collect ext st v).1.last_offered = some "booking_confirm"
       ∧ next_missing_booking_slot (booking_collect ext st v).1.booking_slots = none) := by
  simp only [booking_collect]
  split
  · left
    rfl
  · split
    · left
      rfl
    · next hnone =>
      right
      constructor
      · simp [booking_confirm]
      · simpa [booking_confirm] using hnone

/-- C5: the booking flow reaches the confirmation state exactly after
the fifth valid input.  Universally, a `collect` step that leaves some
required slot missing never changes `last_offered` (so Confirming is
never reached while a required slot is empty); and the concrete
valid-input trace origin, destination, pickup time, name, phone reaches
`last_offered = "booking_confirm"` with the confirmation summary exactly
at step 5 and not before. -/
theorem booking_confirm_exactly_after_fifth :
    (∀ (ext : Ext) (st : SessionState) (v : String),
      next_missing_booking_slot (booking_collect ext st v).1.booking_slots ≠ none →
      (booking_collect ext st v).1.last_offered = st.last_offered)
    ∧ (let s0 : SessionState := { freshSession with intent := some "BookingIntent" }
       let s1 := (booking_collect {} s0 "Ζαΐμη 2").1
       let s2 := (booking_collect {} s1 "Κανακάρη 90").1
       let s3 := (booking_collect {} s2 "18:30").1
       let s4 := (booking_collect {} s3 "Γιώργος").1
       let r5 := booking_collect {} s4 "6912345678"
       s1.last_offered = none ∧ s2.last_offered = none ∧ s3.last_offered = none
       ∧ s4.last_offered = none ∧ r5.1.last_offered = some "booking_confirm"
       ∧ next_missing_booking_slot s4.booking_slots = some "phone"
       ∧ next_missing_booking_slot r5.1.booking_slots = none
       ∧ strContains r5.2 "Σύνοψη κράτησης" = true) := by
  refine ⟨?_, by decide⟩
  intro ext st v h
  rcases collect_offer_cases ext st v with h1 | ⟨h1, h2⟩
  · exact h1
  · exact absurd h2 h

/-- Witness for C5's universal part: the first collect step (destination
still missing afterwards) leaves `last_offered` at `none`. -/
theorem booking_confirm_exactly_after_fifth_witness :
    (booking_collect {} { freshSession with intent := some "BookingIntent" }
      "Ζαΐμη 2").1.last_offered
    = ({ freshSession with intent := some "BookingIntent" } : SessionState).last_offered :=
  booking_confirm_exactly_after_fifth.1 {} _ "Ζαΐμη 2" (by decide)

/-- C2 counterexample: with a booking in progress (required `name` slot
still missing), the message "άκυρο" is consumed by `booking_collect`
instead of cancelling — it is stored as the customer's name, the session
keeps the Booking intent, and the reply is the phone prompt, not the
cancellation acknowledgment. -/
theorem cancel_ignored_mid_booking_cex :
    (let st : SessionState := { freshSession with
       intent := some "BookingIntent",
       booking_slots := [("origin", "Ζαΐμη 2"), ("destination", "Κανακάρη 90"),
         ("pickup_time", "18:30")] }
     let res := process_message {} (some st) "άκυρο"
     (res.1.getD freshSession).intent = some "BookingIntent"
     ∧ dget (res.1.getD freshSession).booking_slots "name" = some "άκυρο"
     ∧ res.1 ≠ some freshSession
     ∧ res.2 ≠ cancelAck) := by decide

/-- C2 amended: outside an in-progress booking collection (and with the
LLM fallback router not claiming the message: its route intent is none of
BaggageCost/TripCost/Booking, no slots merged, no pending luggage keys),
processing "άκυρο" clears the stored session — the result is a fresh
default (intent none, empty slots and booking slots, full budget) whose
context buffer records the exchange — and the reply is the styled
cancellation acknowledgment. -/
theorem cancel_clears_session_outside_booking (ext : Ext) (st : SessionState)
    (hb : ¬(st.intent = some "BookingIntent"
        ∧ (BOOKING_REQUIRED.any (fun k => ¬ truthyOpt (dget st.booking_slots k))) = true))
    (hslots : (ext.llmRoute (joinNL (takeLast 8 st.context_turns)) "άκυρο").slots = [])
    (hint : (ext.llmRoute (joinNL (takeLast 8 st.context_turns)) "άκυρο").intent
        ∉ (["BaggageCost", "TripCost", "Booking"] : List String))
    (hlc : pget st.pending_trip "luggage_count" = none)
    (hlh : pget st.pending_trip "luggage_heavy" = none) :
    process_message ext (some st) "άκυρο"
      = (some { freshSession with
          context_turns := ["U: άκυρο", "A: " ++ ext.enrich cancelAck] },
         ext.enrich cancelAck) := by
  have hstrip : pyStrip "άκυρο" = "άκυρο" := by decide
  have hlow : pyLower "άκυρο" = "άκυρο" := by decide
  have hmh : maybe_handle_followup_or_booking ext st "άκυρο" = (st, none) := by
    simp only [maybe_handle_followup_or_booking, hstrip, hlow, hslots]
    rw [if_neg (by decide)]
    rw [if_neg (fun h => absurd h.1 (by decide))]
    rw [if_neg (fun h => absurd h.1 (by decide))]
    rw [if_neg (fun h => absurd h.1 (by decide))]
    rw [if_neg (fun h => absurd h.1 (by decide))]
    rw [if_neg hb]
    rw [if_neg (by decide)]
    rw [show mergeRouteSlots st [] = st from rfl]
    rw [if_neg ?hbag]
    case hbag =>
      intro h
      rcases h with h | h | h
      · exact hint (by simp [h])
      · exact h hlc
      · exact h hlh
    rw [if_neg (fun h => hint (by simp [h]))]
    rw [if_neg (fun h => hint (by simp [h]))]
    rw [List.find?_eq_none.mpr (by decide)]
  simp only [process_message, hstrip, hlow, get_state]
  rw [if_neg (show ¬("άκυρο" : String) = "" from by decide)]
  rw [if_neg (show ¬(is_contact_intent "άκυρο" = true) from by decide)]
  rw [hmh]
  dsimp only
  rw [if_neg (fun h => absurd h.1 (by decide))]
  have hdec : decide_intent ext (some st) "άκυρο" ext.predicted ext.score = ("", none) := by
    simp only [decide_intent, hlow, get_state]
    rw [if_pos (show is_cancel_message "άκυρο" = true from by decide)]
  rw [hdec]
  rw [if_pos ⟨rfl, by decide⟩]
  rfl

/-- Witness for C2 amended: with an active pharmacy session, "άκυρο"
leaves exactly the fresh default session plus the recorded exchange. -/
theorem cancel_clears_session_outside_booking_witness :
    process_message {} (some { freshSession with
      intent := some "OnDutyPharmacyIntent",
      slots := [("area", "Πάτρα")] }) "άκυρο"
    = (some { freshSession with
        context_turns := ["U: άκυρο", "A: " ++ cancelAck] }, cancelAck) :=
  cancel_clears_session_outside_booking {}
    { freshSession with
      intent := some "OnDutyPharmacyIntent",
      slots := [("area", "Πάτρα")] }
    (by decide) rfl (by decide) rfl rfl

/-- Spec-side reading of step 2a: the first intent in priority order
with at least one trigger hit. -/
def specFirstTriggerIntent (t : String) : Option String :=
  intents_order.find? (fun i => 1 ≤ intent_trigger_hits i t)

/-- Spec-side reading of `bestOtherIntent`: among non-excluded intents
in priority order, the first achieving the maximum hit count, provided
that maximum is nonzero. -/
def specBestOther (t : String) (exc : Option String) : Option String × Nat :=
  let elig := intents_order.filter (fun i => !isExcluded exc i)
  let m := (elig.map (fun i => intent_trigger_hits i t)).foldr max 0
  if m = 0 then (none, 0) else (elig.find? (fun i => intent_trigger_hits i t = m), m)

theorem foldr_max_ge (l : List Nat) (a : Nat) (h : a ∈ l) : a ≤ l.foldr max 0 := by
  induction l with
  | nil => cases h
  | cons hd tl ih =>
    rcases List.mem_cons.mp h with rfl | h2
    · simp only [List.foldr_cons]
      exact Nat.le_max_left _ _
    · have := ih h2
      simp only [List.foldr_cons]
      omega

theorem foldr_max_attained (l : List Nat) : l.foldr max 0 = 0 ∨ l.foldr max 0 ∈ l := by
  induction l with
  | nil => left; rfl
  | cons hd tl ih =>
    simp only [List.foldr_cons]
    rcases Nat.le_total hd (tl.foldr max 0) with hle | hle
    · rw [Nat.max_eq_right hle]
      rcases ih with h0 | hmem
      · left; exact h0
      · right; exact List.mem_cons_of_mem hd hmem
    · rw [Nat.max_eq_left hle]
      right
      exact List.mem_cons_self hd tl

theorem foldr_max_append (l1 l2 : List Nat) :
    (l1 ++ l2).foldr max 0 = max (l1.foldr max 0) (l2.foldr max 0) := by
  induction l1 with
  | nil => simp
  | cons hd tl ih =>
    simp only [List.cons_append, List.foldr_cons, ih]
    omega

theorem find?_congr_pred {α : Type} (l : List α) (p q : α → Bool)
    (h : ∀ a, p a = q a) : l.find? p = l.find? q := by
  induction l with
  | nil => rfl
  | cons hd tl ih =>
    cases hq : q hd with
    | true => simp [List.find?, h hd, hq]
    | false => simp [List.find?, h hd, hq, ih]

theorem match_triggers_eq_hits (t i : String) :
    match_triggers t i = decide (1 ≤ intent_trigger_hits i t) := by
  cases h : match_triggers t i with
  | true => exact (decide_eq_true (match_triggers_one_hit t i h)).symm
  | false =>
    have h0 : intent_trigger_hits i t = 0 := by
      unfold match_triggers at h
      unfold intent_trigger_hits
      rw [List.countP_eq_zero]
      intro a ha
      exact (List.any_eq_false.mp h) a ha
    simp [h0]

/-- The fold of `_best_intent_from_triggers` computes exactly the
spec-side "first intent achieving the maximum nonzero hit count". -/
theorem best_fold_eq_spec (t : String) (exc : Option String) (l : List String) :
    l.foldl
      (fun acc it =>
        if isExcluded exc it then acc
        else
          let hits := intent_trigger_hits it t
          if hits > acc.2 then (some it, hits) else acc)
      (none, 0)
    = (let elig := l.filter (fun i => !isExcluded exc i)
       let m := (elig.map (fun i => intent_trigger_hits i t)).foldr max 0
       if m = 0 then ((none : Option String), 0)
       else (elig.find? (fun i => intent_trigger_hits i t = m), m)) := by
  induction l using List.reverseRecOn with
  | nil => simp
  | append_singleton l x ih =>
    rw [List.foldl_append, List.foldl_cons, List.foldl_nil, ih]
    dsimp only
    by_cases hex : isExcluded exc x = true
    · have hfx : List.filter (fun i => !isExcluded exc i) [x] = [] := by simp [hex]
      rw [if_pos hex, List.filter_append, hfx, List.append_nil]
    · simp only [Bool.not_eq_true] at hex
      have hfx : List.filter (fun i => !isExcluded exc i) [x] = [x] := by simp [hex]
      rw [if_neg (by simp [hex]), List.filter_append, hfx, List.map_append, foldr_max_append]
      simp only [List.map_cons, List.map_nil, List.foldr_cons, List.foldr_nil]
      set E := l.filter (fun i => !isExcluded exc i) with hE
      set m := (E.map (fun i => intent_trigger_hits i t)).foldr max 0 with hm
      have hsnd : (if m = 0 then ((none : Option String), 0)
          else (E.find? (fun i => intent_trigger_hits i t = m), m)).2 = m := by
        split
        · next h0 => simp [h0]
        · rfl
      rw [hsnd]
      by_cases hgt : intent_trigger_hits x t > m
      · rw [if_pos hgt]
        have hmx : max m (max (intent_trigger_hits x t) 0) = intent_trigger_hits x t := by
          omega
        simp only [hmx]
        rw [if_neg (by omega)]
        have hnone : E.find? (fun i => intent_trigger_hits i t = intent_trigger_hits x t)
            = none := by
          rw [List.find?_eq_none]
          intro e he
          have hle : intent_trigger_hits e t ≤ m := by
            apply foldr_max_ge
            exact List.mem_map.mpr ⟨e, he, rfl⟩
          simp only [decide_eq_true_eq]
          omega
        rw [List.find?_append, hnone]
        simp [List.find?]
      · rw [if_neg hgt]
        have hmx : max m (max (intent_trigger_hits x t) 0) = m := by omega
        simp only [hmx]
        by_cases h0 : m = 0
        · simp [h0]
        · rw [if_neg h0, if_neg h0]
          have hatt : ∃ e ∈ E, intent_trigger_hits e t = m := by
            rcases foldr_max_attained (E.map (fun i => intent_trigger_hits i t)) with ha | ha
            · exact absurd (hm ▸ ha) h0
            · rcases List.mem_map.mp ha with ⟨e, he, hfe⟩
              exact ⟨e, he, hfe⟩
          have hsome : (E.find? (fun i => intent_trigger_hits i t = m)).isSome := by
            rw [List.find?_isSome]
            rcases hatt with ⟨e, he, hfe⟩
            exact ⟨e, he, by simp [hfe]⟩
          rcases Option.isSome_iff_exists.mp hsome with ⟨c, hc⟩
          rw [List.find?_append, hc]
          rfl

/-- `_best_intent_from_triggers` equals its spec-side description. -/
theorem best_eq_spec (t : String) (exc : Option String) :
    best_intent_from_triggers t exc = specBestOther t exc := by
  unfold best_intent_from_triggers specBestOther
  exact best_fold_eq_spec t exc intents_order

/-- C7: intent selection follows the fixed priority order.  Concretely,
text with both a TripCost trigger ("κοστίζει") and a Pharmacy trigger
("φαρμακείο") selects TripCost with no active intent; with no active
intent the decision adopts exactly the first intent in priority order
with at least one hit; and `_best_intent_from_triggers` returns the
first intent in that order achieving the maximum nonzero hit count,
ties broken by the same order. -/
theorem priority_order_determinism :
    ((decide_intent {} (some freshSession) "κοστίζει φαρμακείο" none 0)
       = ("TripCostIntent", some (freshWith "TripCostIntent"))
     ∧ 1 ≤ intent_trigger_hits "OnDutyPharmacyIntent" (pyLower "κοστίζει φαρμακείο"))
    ∧ (∀ (ext : Ext) (st : SessionState) (text : String) (p : Option String) (s : ℚ) (J : String),
        st.intent = none →
        is_cancel_message (pyLower text) = false →
        specFirstTriggerIntent (pyLower text) = some J →
        decide_intent ext (some st) text p s = (J, some (freshWith J)))
    ∧ (∀ (t : String) (exc : Option String),
        best_intent_from_triggers t exc = specBestOther t exc) := by
  refine ⟨by constructor <;> decide, ?_, best_eq_spec⟩
  intro ext st text p s J hi hcan hJ
  simp only [decide_intent, get_state, hi, truthyOpt]
  rw [if_neg (by simp [hcan])]
  simp only [Bool.false_eq_true, if_false]
  unfold decide_new
  rw [find?_congr_pred intents_order _ _ (fun a => match_triggers_eq_hits (pyLower text) a)]
  unfold specFirstTriggerIntent at hJ
  rw [hJ]

/-- Witness for C7: the concrete decision and a concrete bestOtherIntent
comparison, with TripCost excluded (Pharmacy wins among the rest). -/
theorem priority_order_determinism_witness :
    decide_intent {} (some freshSession) "κοστίζει φαρμακείο" none 0
      = ("TripCostIntent", some (freshWith "TripCostIntent"))
    ∧ best_intent_from_triggers "κοστίζει φαρμακείο" (some "TripCostIntent")
      = specBestOther "κοστίζει φαρμακείο" (some "TripCostIntent") :=
  ⟨priority_order_determinism.2.1 {} freshSession "κοστίζει φαρμακείο" none 0 "TripCostIntent"
      rfl (by decide) (by decide),
   priority_order_determinism.2.2 "κοστίζει φαρμακείο" (some "TripCostIntent")⟩

/-- Witness for C3: a "ναι" with an active pharmacy session (area slot
filled) stays on the pharmacy intent with the session intact. -/
theorem confirmation_never_resets_witness :
    decide_intent {} (some { freshSession with
      intent := some "OnDutyPharmacyIntent",
      slots := [("area", "Ρίο")] }) "ναι" none 0
    = ("OnDutyPharmacyIntent", some { freshSession with
        intent := some "OnDutyPharmacyIntent",
        slots := [("area", "Ρίο")] }) :=
  confirmation_never_resets {} _ "OnDutyPharmacyIntent" "ναι" none 0 rfl
    (by decide) (by decide)

end MrBooky
